import Mathlib

/-!
A shallow embedding of the persona generator in `dataGenerator.py`
(class `PersonaGenerator` and its methods), together with theorems checking
the specification's claims about it.

Python strings are modelled as lists of characters (`Str`), Python sets of
strings as duplicate-free lists with guarded insertion, and the calls to
`random.choice` / `random.randint` / `datetime.now()` as reads from explicit
input streams carried in an environment value, so that quantifying over
streams quantifies over the possible random outcomes.  The `hashlib.md5`
digest and the `strftime` rendering of timestamps are parameters of the
embedding (`md5`, `strf`): theorems quantify over them, since only the
determinism of the digest is load-bearing for the generator's logic.
-/

namespace DataGen

/-- Python `str`, modelled as its sequence of characters. -/
abbrev Str := List Char

/-- Conversion of a Lean string literal into the model's string type. -/
def str (s : String) : Str := s.data

/-- The stream of outcomes feeding `random.*` calls plus the stream of
`datetime.now()` readings (in milliseconds), consumed left to right. -/
structure Env where
  rng : List Nat
  clock : List Nat
deriving Repr

/-- Read one value from the random stream (0 once the stream is exhausted). -/
def Env.nextRand : Env → Nat × Env
  | ⟨[], c⟩ => (0, ⟨[], c⟩)
  | ⟨v :: vs, c⟩ => (v, ⟨vs, c⟩)

/-- Read one millisecond timestamp from the clock stream. -/
def Env.nextTime : Env → Nat × Env
  | ⟨r, []⟩ => (0, ⟨r, []⟩)
  | ⟨r, v :: vs⟩ => (v, ⟨r, vs⟩)

/-- Python `random.randint(a, b)`: an arbitrary stream value mapped into `[a, b]`. -/
def randint (a b : Nat) (e : Env) : Nat × Env :=
  (a + e.nextRand.1 % (b + 1 - a), e.nextRand.2)

/-- Python `random.choice(l)`: an arbitrary stream value selecting an index of `l`
(`d` is a default never used on the nonempty lists the generator passes). -/
def choice {α : Type} (l : List α) (d : α) (e : Env) : α × Env :=
  (l.getD (e.nextRand.1 % l.length) d, e.nextRand.2)

/-- The decimal digit character for `n < 10`. -/
def digitChar (n : Nat) : Char := Char.ofNat (48 + n)

/-- Fuelled decimal rendering, most significant digit first. -/
def decChars : Nat → Nat → Str
  | 0, _ => []
  | fuel + 1, n => if n < 10 then [digitChar n] else decChars fuel (n / 10) ++ [digitChar (n % 10)]

/-- Python `str(n)` / `f"{n}"` for a natural number. -/
def decRepr (n : Nat) : Str := decChars (n + 1) n

/-- Python `f"{n:0wd}"`: the decimal rendering zero-padded to width `w`. -/
def fmt0 (w n : Nat) : Str := List.replicate (w - (decRepr n).length) '0' ++ decRepr n

/-- Numeric value of a digit string; inverse of `decRepr`, used for injectivity. -/
def valOf (s : Str) : Nat := s.foldl (fun a c => 10 * a + (c.toNat - 48)) 0

/-- Python `s.lower()` (the generator only lowercases ASCII name strings). -/
def lower (s : Str) : Str := s.map Char.toLower

/-- Python `'|'.join(args)`. -/
def joinPipe : List Str → Str
  | [] => []
  | [a] => a
  | a :: rest => a ++ '|' :: joinPipe rest

/-- Python `s.split()[0]` for the space-separated name strings the generator
builds (they never start with whitespace). -/
def firstToken (s : Str) : Str := s.takeWhile (fun c => c ≠ ' ')

/-- Python `set.add`: sets of strings are duplicate-free lists, newest first. -/
def insertSet (x : Str) (l : List Str) : List Str := if x ∈ l then l else x :: l

def first_names_male : List Str :=
  [str "James", str "John", str "Robert", str "Michael", str "William", str "David", str "Richard", str "Joseph", str "Thomas", str "Christopher", str "Daniel", str "Matthew", str "Anthony", str "Mark", str "Donald", str "Kenneth", str "Steven", str "Edward", str "Brian", str "Ronald", str "Kevin", str "Jason", str "Jeffrey", str "Ryan", str "Jacob", str "Gary", str "Nicholas", str "Eric", str "Jonathan", str "Stephen", str "Larry", str "Justin", str "Scott", str "Brandon", str "Benjamin", str "Samuel", str "Frank", str "Gregory", str "Raymond", str "Alexander", str "Patrick", str "Jack"]

def first_names_female : List Str :=
  [str "Mary", str "Patricia", str "Jennifer", str "Linda", str "Elizabeth", str "Barbara", str "Susan", str "Jessica", str "Sarah", str "Karen", str "Nancy", str "Margaret", str "Lisa", str "Betty", str "Dorothy", str "Sandra", str "Ashley", str "Kimberly", str "Donna", str "Emily", str "Michelle", str "Carol", str "Amanda", str "Melissa", str "Deborah", str "Stephanie", str "Rebecca", str "Laura", str "Sharon", str "Cynthia", str "Kathleen", str "Amy", str "Shirley", str "Angela", str "Helen", str "Anna", str "Brenda", str "Pamela", str "Nicole", str "Emma", str "Samantha", str "Katherine"]

def last_names : List Str :=
  [str "Smith", str "Johnson", str "Williams", str "Brown", str "Jones", str "Garcia", str "Miller", str "Davis", str "Rodriguez", str "Martinez", str "Hernandez", str "Lopez", str "Gonzalez", str "Wilson", str "Anderson", str "Thomas", str "Taylor", str "Moore", str "Jackson", str "Martin", str "Lee", str "Perez", str "Thompson", str "White", str "Harris", str "Sanchez", str "Clark", str "Ramirez", str "Lewis", str "Robinson", str "Walker", str "Young", str "Allen", str "King", str "Wright", str "Scott", str "Torres", str "Nguyen", str "Hill", str "Flores", str "Green", str "Adams", str "Nelson", str "Baker", str "Hall", str "Rivera", str "Campbell", str "Mitchell"]

structure Place where
  pname : Str
  paddress : Str
  pcity : Str
  pzip : Str
deriving DecidableEq, Repr

def mkPlace (n a c z : String) : Place :=
  { pname := str n, paddress := str a, pcity := str c, pzip := str z }

def public_places : List (Str × List Place) :=
  [(str "Alabama", [mkPlace "Birmingham Public Library" "2100 Park Place" "Birmingham" "35203", mkPlace "Montgomery City Hall" "103 N Perry St" "Montgomery" "36104", mkPlace "Railroad Park" "1600 1st Ave S" "Birmingham" "35233", mkPlace "Mobile Public Library" "701 Government St" "Mobile" "36602", mkPlace "Huntsville Public Library" "915 Monroe St SW" "Huntsville" "35801"]),
  (str "Alaska", [mkPlace "Anchorage Public Library" "3600 Denali St" "Anchorage" "99503", mkPlace "Alaska State Capitol" "120 4th St" "Juneau" "99801", mkPlace "Fairbanks Public Library" "1215 Cowles St" "Fairbanks" "99701", mkPlace "Town Square Park" "540 W 5th Ave" "Anchorage" "99501", mkPlace "Juneau Public Library" "292 Marine Way" "Juneau" "99801"]),
  (str "Arizona", [mkPlace "Phoenix Public Library" "1221 N Central Ave" "Phoenix" "85004", mkPlace "Arizona State Capitol" "1700 W Washington St" "Phoenix" "85007", mkPlace "Tucson City Hall" "255 W Alameda St" "Tucson" "85701", mkPlace "Scottsdale Public Library" "3839 N Drinkwater Blvd" "Scottsdale" "85251", mkPlace "Mesa Public Library" "64 E 1st St" "Mesa" "85201"]),
  (str "Arkansas", [mkPlace "Little Rock Central Library" "100 Rock St" "Little Rock" "72201", mkPlace "Arkansas State Capitol" "500 Woodlane St" "Little Rock" "72201", mkPlace "Riverfront Park" "400 President Clinton Ave" "Little Rock" "72201", mkPlace "Fayetteville Public Library" "401 W Mountain St" "Fayetteville" "72701", mkPlace "Fort Smith Public Library" "3201 Rogers Ave" "Fort Smith" "72903"]),
  (str "California", [mkPlace "Los Angeles Central Library" "630 W 5th St" "Los Angeles" "90071", mkPlace "San Francisco Public Library" "100 Larkin St" "San Francisco" "94102", mkPlace "Golden Gate Park" "501 Stanyan St" "San Francisco" "94117", mkPlace "San Diego Central Library" "330 Park Blvd" "San Diego" "92101", mkPlace "California State Capitol" "1315 10th St" "Sacramento" "95814"]),
  (str "Colorado", [mkPlace "Denver Public Library" "10 W 14th Ave Pkwy" "Denver" "80204", mkPlace "Denver Botanic Gardens" "1007 York St" "Denver" "80206", mkPlace "Boulder Public Library" "1001 Arapahoe Ave" "Boulder" "80302", mkPlace "Colorado State Capitol" "200 E Colfax Ave" "Denver" "80203", mkPlace "Pikes Peak Library" "20 N Cascade Ave" "Colorado Springs" "80903"]),
  (str "Connecticut", [mkPlace "Hartford Public Library" "500 Main St" "Hartford" "06103", mkPlace "Connecticut State Capitol" "210 Capitol Ave" "Hartford" "06106", mkPlace "New Haven Free Library" "133 Elm St" "New Haven" "06510", mkPlace "Bushnell Park" "1 Jewell St" "Hartford" "06103", mkPlace "Stamford Public Library" "1 Public Library Plaza" "Stamford" "06904"]),
  (str "Delaware", [mkPlace "Wilmington Library" "10 E 10th St" "Wilmington" "19801", mkPlace "Delaware Legislative Hall" "411 Legislative Ave" "Dover" "19901", mkPlace "Brandywine Park" "1080 N Park Dr" "Wilmington" "19802", mkPlace "Dover Public Library" "35 E Loockerman St" "Dover" "19901", mkPlace "Newark Free Library" "750 Library Ave" "Newark" "19711"]),
  (str "Florida", [mkPlace "Miami-Dade Public Library" "101 W Flagler St" "Miami" "33130", mkPlace "Orlando Public Library" "101 E Central Blvd" "Orlando" "32801", mkPlace "Tampa-Hillsborough Library" "900 N Ashley Dr" "Tampa" "33602", mkPlace "Jacksonville Public Library" "303 N Laura St" "Jacksonville" "32202", mkPlace "Lake Eola Park" "512 E Washington St" "Orlando" "32801"]),
  (str "Georgia", [mkPlace "Atlanta-Fulton Library" "1 Margaret Mitchell Square" "Atlanta" "30303", mkPlace "Piedmont Park" "1320 Monroe Dr NE" "Atlanta" "30306", mkPlace "Georgia State Capitol" "206 Washington St SW" "Atlanta" "30334", mkPlace "Savannah Public Library" "2002 Bull St" "Savannah" "31401", mkPlace "Columbus Public Library" "3000 Macon Rd" "Columbus" "31906"]),
  (str "Hawaii", [mkPlace "Hawaii State Library" "478 S King St" "Honolulu" "96813", mkPlace "Hawaii State Capitol" "415 S Beretania St" "Honolulu" "96813", mkPlace "Kapiolani Park" "3840 Paki Ave" "Honolulu" "96815", mkPlace "Maui Public Library" "251 S High St" "Wailuku" "96793", mkPlace "Hilo Public Library" "300 Waianuenue Ave" "Hilo" "96720"]),
  (str "Idaho", [mkPlace "Boise Public Library" "715 S Capitol Blvd" "Boise" "83702", mkPlace "Idaho State Capitol" "700 W Jefferson St" "Boise" "83720", mkPlace "Julia Davis Park" "700 S Capitol Blvd" "Boise" "83702", mkPlace "Coeur d'Alene Library" "702 E Front Ave" "Coeur d'Alene" "83814", mkPlace "Idaho Falls Library" "457 W Broadway St" "Idaho Falls" "83402"]),
  (str "Illinois", [mkPlace "Chicago Public Library" "400 S State St" "Chicago" "60605", mkPlace "Millennium Park" "201 E Randolph St" "Chicago" "60602", mkPlace "Illinois State Capitol" "401 S 2nd St" "Springfield" "62701", mkPlace "Grant Park" "337 E Randolph St" "Chicago" "60601", mkPlace "Navy Pier" "600 E Grand Ave" "Chicago" "60611"]),
  (str "Indiana", [mkPlace "Indianapolis Public Library" "40 E St Clair St" "Indianapolis" "46204", mkPlace "Indiana State Capitol" "200 W Washington St" "Indianapolis" "46204", mkPlace "White River State Park" "801 W Washington St" "Indianapolis" "46204", mkPlace "Fort Wayne Library" "900 Library Plaza" "Fort Wayne" "46802", mkPlace "Evansville Public Library" "200 SE Martin Luther King Jr Blvd" "Evansville" "47713"]),
  (str "Iowa", [mkPlace "Des Moines Public Library" "1000 Grand Ave" "Des Moines" "50309", mkPlace "Iowa State Capitol" "1007 E Grand Ave" "Des Moines" "50319", mkPlace "Gray's Lake Park" "2101 Fleur Dr" "Des Moines" "50321", mkPlace "Cedar Rapids Library" "450 5th Ave SE" "Cedar Rapids" "52401", mkPlace "Davenport Public Library" "321 Main St" "Davenport" "52801"]),
  (str "Kansas", [mkPlace "Wichita Public Library" "223 S Main St" "Wichita" "67202", mkPlace "Kansas State Capitol" "300 SW 10th Ave" "Topeka" "66612", mkPlace "Topeka Public Library" "1515 SW 10th Ave" "Topeka" "66604", mkPlace "Kansas City Library" "625 Minnesota Ave" "Kansas City" "66101", mkPlace "Lawrence Public Library" "707 Vermont St" "Lawrence" "66044"]),
  (str "Kentucky", [mkPlace "Louisville Free Library" "301 York St" "Louisville" "40203", mkPlace "Kentucky State Capitol" "700 Capitol Ave" "Frankfort" "40601", mkPlace "Cherokee Park" "745 Cochran Hill Rd" "Louisville" "40206", mkPlace "Lexington Public Library" "140 E Main St" "Lexington" "40507", mkPlace "Bowling Green Library" "1225 State St" "Bowling Green" "42101"]),
  (str "Louisiana", [mkPlace "New Orleans Public Library" "219 Loyola Ave" "New Orleans" "70112", mkPlace "Louisiana State Capitol" "900 N 3rd St" "Baton Rouge" "70802", mkPlace "City Park" "1 Palm Dr" "New Orleans" "70124", mkPlace "Baton Rouge Library" "7711 Goodwood Blvd" "Baton Rouge" "70806", mkPlace "Lafayette Public Library" "301 W Congress St" "Lafayette" "70501"]),
  (str "Maine", [mkPlace "Portland Public Library" "5 Monument Square" "Portland" "04101", mkPlace "Maine State House" "2 State House Station" "Augusta" "04333", mkPlace "Deering Oaks Park" "20 Deering Ave" "Portland" "04102", mkPlace "Bangor Public Library" "145 Harlow St" "Bangor" "04401", mkPlace "Lewiston Public Library" "200 Lisbon St" "Lewiston" "04240"]),
  (str "Maryland", [mkPlace "Enoch Pratt Library" "400 Cathedral St" "Baltimore" "21201", mkPlace "Maryland State House" "100 State Cir" "Annapolis" "21401", mkPlace "Inner Harbor" "401 Light St" "Baltimore" "21202", mkPlace "Rockville Library" "21 Maryland Ave" "Rockville" "20850", mkPlace "Silver Spring Library" "900 Wayne Ave" "Silver Spring" "20910"]),
  (str "Massachusetts", [mkPlace "Boston Public Library" "700 Boylston St" "Boston" "02116", mkPlace "Boston Common" "139 Tremont St" "Boston" "02111", mkPlace "Massachusetts State House" "24 Beacon St" "Boston" "02133", mkPlace "Cambridge Public Library" "449 Broadway" "Cambridge" "02138", mkPlace "Worcester Public Library" "3 Salem Square" "Worcester" "01608"]),
  (str "Michigan", [mkPlace "Detroit Public Library" "5201 Woodward Ave" "Detroit" "48202", mkPlace "Michigan State Capitol" "100 N Capitol Ave" "Lansing" "48933", mkPlace "Belle Isle Park" "2 Inselruhe Ave" "Detroit" "48207", mkPlace "Grand Rapids Library" "111 Library St NE" "Grand Rapids" "49503", mkPlace "Ann Arbor Library" "343 S 5th Ave" "Ann Arbor" "48104"]),
  (str "Minnesota", [mkPlace "Minneapolis Central Library" "300 Nicollet Mall" "Minneapolis" "55401", mkPlace "Minnesota State Capitol" "75 Rev Dr Martin Luther King Jr Blvd" "St Paul" "55155", mkPlace "Lake Harriet Park" "4135 W Lake Harriet Pkwy" "Minneapolis" "55409", mkPlace "St Paul Public Library" "90 W 4th St" "St Paul" "55102", mkPlace "Duluth Public Library" "520 W Superior St" "Duluth" "55802"]),
  (str "Mississippi", [mkPlace "Jackson Library" "300 N State St" "Jackson" "39201", mkPlace "Mississippi State Capitol" "400 High St" "Jackson" "39201", mkPlace "LeFleur's Bluff State Park" "2140 Riverside Dr" "Jackson" "39202", mkPlace "Gulfport Library" "1708 25th Ave" "Gulfport" "39501", mkPlace "Biloxi Public Library" "580 Howard Ave" "Biloxi" "39530"]),
  (str "Missouri", [mkPlace "Kansas City Public Library" "14 W 10th St" "Kansas City" "64105", mkPlace "Missouri State Capitol" "201 W Capitol Ave" "Jefferson City" "65101", mkPlace "Forest Park" "5595 Grand Dr" "St Louis" "63112", mkPlace "St Louis Public Library" "1301 Olive St" "St Louis" "63103", mkPlace "Springfield Library" "4653 S Campbell Ave" "Springfield" "65810"]),
  (str "Montana", [mkPlace "Billings Public Library" "510 N Broadway" "Billings" "59101", mkPlace "Montana State Capitol" "1301 E 6th Ave" "Helena" "59601", mkPlace "Pioneer Park" "401 Parkhill Dr" "Billings" "59101", mkPlace "Missoula Public Library" "301 E Main St" "Missoula" "59802", mkPlace "Great Falls Library" "301 2nd Ave N" "Great Falls" "59401"]),
  (str "Nebraska", [mkPlace "Omaha Public Library" "215 S 15th St" "Omaha" "68102", mkPlace "Nebraska State Capitol" "1445 K St" "Lincoln" "68509", mkPlace "Memorial Park" "6005 Underwood Ave" "Omaha" "68132", mkPlace "Lincoln City Libraries" "136 S 14th St" "Lincoln" "68508", mkPlace "Grand Island Library" "211 N Washington St" "Grand Island" "68801"]),
  (str "Nevada", [mkPlace "Las Vegas Library" "833 Las Vegas Blvd N" "Las Vegas" "89101", mkPlace "Nevada State Capitol" "101 N Carson St" "Carson City" "89701", mkPlace "Sunset Park" "2601 E Sunset Rd" "Las Vegas" "89120", mkPlace "Reno Library" "301 S Center St" "Reno" "89501", mkPlace "Henderson Libraries" "280 S Green Valley Pkwy" "Henderson" "89012"]),
  (str "New Hampshire", [mkPlace "Manchester City Library" "405 Pine St" "Manchester" "03104", mkPlace "New Hampshire State House" "107 N Main St" "Concord" "03301", mkPlace "White Park" "125 White St" "Concord" "03301", mkPlace "Nashua Public Library" "2 Court St" "Nashua" "03060", mkPlace "Portsmouth Library" "175 Parrott Ave" "Portsmouth" "03801"]),
  (str "New Jersey", [mkPlace "Newark Public Library" "5 Washington St" "Newark" "07101", mkPlace "New Jersey State House" "125 W State St" "Trenton" "08608", mkPlace "Liberty State Park" "1 Audrey Zapp Dr" "Jersey City" "07305", mkPlace "Jersey City Library" "472 Jersey Ave" "Jersey City" "07302", mkPlace "Camden County Library" "203 Laurel Rd" "Voorhees" "08043"]),
  (str "New Mexico", [mkPlace "Albuquerque Library" "501 Copper Ave NW" "Albuquerque" "87102", mkPlace "New Mexico State Capitol" "490 Old Santa Fe Trail" "Santa Fe" "87501", mkPlace "Roosevelt Park" "500 Spruce St SE" "Albuquerque" "87106", mkPlace "Santa Fe Public Library" "145 Washington Ave" "Santa Fe" "87501", mkPlace "Las Cruces Library" "200 E Picacho Ave" "Las Cruces" "88001"]),
  (str "New York", [mkPlace "New York Public Library" "476 5th Ave" "New York" "10018", mkPlace "Central Park" "59th to 110th St" "New York" "10022", mkPlace "Brooklyn Public Library" "10 Grand Army Plaza" "Brooklyn" "11238", mkPlace "Buffalo Central Library" "1 Lafayette Square" "Buffalo" "14203", mkPlace "Albany Public Library" "161 Washington Ave" "Albany" "12210"]),
  (str "North Carolina", [mkPlace "Charlotte Library" "310 N Tryon St" "Charlotte" "28202", mkPlace "North Carolina State Capitol" "1 E Edenton St" "Raleigh" "27601", mkPlace "Freedom Park" "1900 East Blvd" "Charlotte" "28203", mkPlace "Wake County Library" "4020 Carya Dr" "Raleigh" "27610", mkPlace "Durham County Library" "300 N Roxboro St" "Durham" "27701"]),
  (str "North Dakota", [mkPlace "Bismarck Library" "515 N 5th St" "Bismarck" "58501", mkPlace "North Dakota State Capitol" "600 E Boulevard Ave" "Bismarck" "58505", mkPlace "Sertoma Park" "2400 Longspur Trail" "Bismarck" "58504", mkPlace "Fargo Public Library" "102 3rd St N" "Fargo" "58102", mkPlace "Grand Forks Library" "2110 Library Cir" "Grand Forks" "58201"]),
  (str "Ohio", [mkPlace "Columbus Library" "96 S Grant Ave" "Columbus" "43215", mkPlace "Ohio Statehouse" "1 Capitol Square" "Columbus" "43215", mkPlace "Goodale Park" "120 W Goodale St" "Columbus" "43215", mkPlace "Cleveland Public Library" "325 Superior Ave E" "Cleveland" "44114", mkPlace "Cincinnati Library" "800 Vine St" "Cincinnati" "45202"]),
  (str "Oklahoma", [mkPlace "Metropolitan Library" "300 Park Ave" "Oklahoma City" "73102", mkPlace "Oklahoma State Capitol" "2300 N Lincoln Blvd" "Oklahoma City" "73105", mkPlace "Scissortail Park" "300 SW 7th St" "Oklahoma City" "73109", mkPlace "Tulsa City Library" "400 Civic Center" "Tulsa" "74103", mkPlace "Norman Public Library" "225 N Webster Ave" "Norman" "73069"]),
  (str "Oregon", [mkPlace "Multnomah County Library" "801 SW 10th Ave" "Portland" "97204", mkPlace "Oregon State Capitol" "900 Court St NE" "Salem" "97301", mkPlace "Tom McCall Waterfront Park" "98 SW Naito Pkwy" "Portland" "97204", mkPlace "Eugene Public Library" "100 W 10th Ave" "Eugene" "97401", mkPlace "Salem Public Library" "585 Liberty St SE" "Salem" "97301"]),
  (str "Pennsylvania", [mkPlace "Free Library Philadelphia" "1901 Vine St" "Philadelphia" "19103", mkPlace "Pennsylvania State Capitol" "501 N 3rd St" "Harrisburg" "17120", mkPlace "Rittenhouse Square" "1800 Walnut St" "Philadelphia" "19103", mkPlace "Carnegie Library Pittsburgh" "4400 Forbes Ave" "Pittsburgh" "15213", mkPlace "Allentown Public Library" "1210 Hamilton St" "Allentown" "18102"]),
  (str "Rhode Island", [mkPlace "Providence Public Library" "150 Empire St" "Providence" "02903", mkPlace "Rhode Island State House" "82 Smith St" "Providence" "02903", mkPlace "Roger Williams Park" "1000 Elmwood Ave" "Providence" "02907", mkPlace "Warwick Public Library" "600 Sandy Ln" "Warwick" "02886", mkPlace "Newport Public Library" "300 Spring St" "Newport" "02840"]),
  (str "South Carolina", [mkPlace "Charleston County Library" "68 Calhoun St" "Charleston" "29401", mkPlace "South Carolina State House" "1100 Gervais St" "Columbia" "29201", mkPlace "Marion Square" "329 Meeting St" "Charleston" "29403", mkPlace "Richland Library" "1431 Assembly St" "Columbia" "29201", mkPlace "Greenville County Library" "25 Heritage Green Pl" "Greenville" "29601"]),
  (str "South Dakota", [mkPlace "Siouxland Libraries" "200 N Dakota Ave" "Sioux Falls" "57104", mkPlace "South Dakota State Capitol" "500 E Capitol Ave" "Pierre" "57501", mkPlace "Falls Park" "131 E Falls Park Dr" "Sioux Falls" "57104", mkPlace "Rapid City Library" "610 Quincy St" "Rapid City" "57701", mkPlace "Aberdeen Library" "215 SE 4th Ave" "Aberdeen" "57401"]),
  (str "Tennessee", [mkPlace "Nashville Public Library" "615 Church St" "Nashville" "37219", mkPlace "Tennessee State Capitol" "600 Dr MLK Jr Blvd" "Nashville" "37243", mkPlace "Centennial Park" "2500 West End Ave" "Nashville" "37203", mkPlace "Memphis Public Library" "3030 Poplar Ave" "Memphis" "38111", mkPlace "Knox County Library" "500 W Church Ave" "Knoxville" "37902"]),
  (str "Texas", [mkPlace "Houston Public Library" "500 McKinney St" "Houston" "77002", mkPlace "Dallas Public Library" "1515 Young St" "Dallas" "75201", mkPlace "Austin Central Library" "710 W Cesar Chavez St" "Austin" "78701", mkPlace "San Antonio Library" "600 Soledad St" "San Antonio" "78205", mkPlace "Fort Worth Library" "500 W 3rd St" "Fort Worth" "76102"]),
  (str "Utah", [mkPlace "Salt Lake City Library" "210 E 400 S" "Salt Lake City" "84111", mkPlace "Utah State Capitol" "350 State St" "Salt Lake City" "84103", mkPlace "Liberty Park" "600 E 900 S" "Salt Lake City" "84105", mkPlace "Provo City Library" "550 N University Ave" "Provo" "84601", mkPlace "Park City Library" "1255 Park Ave" "Park City" "84060"]),
  (str "Vermont", [mkPlace "Fletcher Free Library" "235 College St" "Burlington" "05401", mkPlace "Vermont State House" "115 State St" "Montpelier" "05633", mkPlace "Waterfront Park" "1 College St" "Burlington" "05401", mkPlace "Rutland Free Library" "10 Court St" "Rutland" "05701", mkPlace "Kellogg-Hubbard Library" "135 Main St" "Montpelier" "05602"]),
  (str "Virginia", [mkPlace "Richmond Public Library" "101 E Franklin St" "Richmond" "23219", mkPlace "Virginia State Capitol" "1000 Bank St" "Richmond" "23219", mkPlace "Byrd Park" "600 S Boulevard" "Richmond" "23220", mkPlace "Virginia Beach Library" "4100 Virginia Beach Blvd" "Virginia Beach" "23452", mkPlace "Norfolk Public Library" "235 E Plume St" "Norfolk" "23510"]),
  (str "Washington", [mkPlace "Seattle Central Library" "1000 4th Ave" "Seattle" "98104", mkPlace "Washington State Capitol" "416 Sid Snyder Ave SW" "Olympia" "98504", mkPlace "Discovery Park" "3801 Discovery Park Blvd" "Seattle" "98199", mkPlace "Spokane Public Library" "906 W Main Ave" "Spokane" "99201", mkPlace "Tacoma Public Library" "1102 Tacoma Ave S" "Tacoma" "98402"]),
  (str "West Virginia", [mkPlace "Charleston Library" "123 Capitol St" "Charleston" "25301", mkPlace "West Virginia State Capitol" "1900 Kanawha Blvd E" "Charleston" "25305", mkPlace "Coonskin Park" "2000 Coonskin Dr" "Charleston" "25311", mkPlace "Huntington Library" "1445 5th Ave" "Huntington" "25701", mkPlace "Morgantown Library" "373 Spruce St" "Morgantown" "26505"]),
  (str "Wisconsin", [mkPlace "Milwaukee Public Library" "814 W Wisconsin Ave" "Milwaukee" "53233", mkPlace "Wisconsin State Capitol" "2 E Main St" "Madison" "53703", mkPlace "Lake Park" "2975 N Lake Park Rd" "Milwaukee" "53211", mkPlace "Madison Public Library" "201 W Mifflin St" "Madison" "53703", mkPlace "Green Bay Library" "515 Pine St" "Green Bay" "54301"]),
  (str "Wyoming", [mkPlace "Laramie County Library" "2200 Pioneer Ave" "Cheyenne" "82001", mkPlace "Wyoming State Capitol" "200 W 24th St" "Cheyenne" "82002", mkPlace "Lions Park" "1100 S Lions Park Dr" "Cheyenne" "82001", mkPlace "Natrona County Library" "307 E 2nd St" "Casper" "82601", mkPlace "Teton County Library" "125 Virginian Ln" "Jackson" "83001"])]

def state_codes : List (Str × Str) :=
  [(str "Alabama", str "AL"),
   (str "Alaska", str "AK"),
   (str "Arizona", str "AZ"),
   (str "Arkansas", str "AR"),
   (str "California", str "CA"),
   (str "Colorado", str "CO"),
   (str "Connecticut", str "CT"),
   (str "Delaware", str "DE"),
   (str "Florida", str "FL"),
   (str "Georgia", str "GA"),
   (str "Hawaii", str "HI"),
   (str "Idaho", str "ID"),
   (str "Illinois", str "IL"),
   (str "Indiana", str "IN"),
   (str "Iowa", str "IA"),
   (str "Kansas", str "KS"),
   (str "Kentucky", str "KY"),
   (str "Louisiana", str "LA"),
   (str "Maine", str "ME"),
   (str "Maryland", str "MD"),
   (str "Massachusetts", str "MA"),
   (str "Michigan", str "MI"),
   (str "Minnesota", str "MN"),
   (str "Mississippi", str "MS"),
   (str "Missouri", str "MO"),
   (str "Montana", str "MT"),
   (str "Nebraska", str "NE"),
   (str "Nevada", str "NV"),
   (str "New Hampshire", str "NH"),
   (str "New Jersey", str "NJ"),
   (str "New Mexico", str "NM"),
   (str "New York", str "NY"),
   (str "North Carolina", str "NC"),
   (str "North Dakota", str "ND"),
   (str "Ohio", str "OH"),
   (str "Oklahoma", str "OK"),
   (str "Oregon", str "OR"),
   (str "Pennsylvania", str "PA"),
   (str "Rhode Island", str "RI"),
   (str "South Carolina", str "SC"),
   (str "South Dakota", str "SD"),
   (str "Tennessee", str "TN"),
   (str "Texas", str "TX"),
   (str "Utah", str "UT"),
   (str "Vermont", str "VT"),
   (str "Virginia", str "VA"),
   (str "Washington", str "WA"),
   (str "West Virginia", str "WV"),
   (str "Wisconsin", str "WI"),
   (str "Wyoming", str "WY")]

def area_codes : List (Str × List Str) :=
  [(str "Alabama", [str "205", str "251", str "256", str "334", str "938"]),
   (str "Alaska", [str "907"]),
   (str "Arizona", [str "480", str "520", str "602", str "623", str "928"]),
   (str "Arkansas", [str "479", str "501", str "870"]),
   (str "California", [str "209", str "213", str "310", str "323", str "408", str "415", str "424", str "442", str "510", str "530", str "559", str "562", str "619", str "626", str "628", str "650", str "657", str "661", str "669", str "707", str "714", str "747", str "760", str "805", str "818", str "831", str "858", str "909", str "916", str "925", str "949", str "951"]),
   (str "Colorado", [str "303", str "719", str "720", str "970"]),
   (str "Connecticut", [str "203", str "475", str "860", str "959"]),
   (str "Delaware", [str "302"]),
   (str "Florida", [str "239", str "305", str "321", str "352", str "386", str "407", str "561", str "727", str "754", str "772", str "786", str "813", str "850", str "863", str "904", str "941", str "954"]),
   (str "Georgia", [str "229", str "404", str "470", str "478", str "678", str "706", str "762", str "770", str "912"]),
   (str "Hawaii", [str "808"]),
   (str "Idaho", [str "208", str "986"]),
   (str "Illinois", [str "217", str "224", str "309", str "312", str "618", str "630", str "708", str "773", str "779", str "815", str "847", str "872"]),
   (str "Indiana", [str "219", str "260", str "317", str "463", str "574", str "765", str "812", str "930"]),
   (str "Iowa", [str "319", str "515", str "563", str "641", str "712"]),
   (str "Kansas", [str "316", str "620", str "785", str "913"]),
   (str "Kentucky", [str "270", str "364", str "502", str "606", str "859"]),
   (str "Louisiana", [str "225", str "318", str "337", str "504", str "985"]),
   (str "Maine", [str "207"]),
   (str "Maryland", [str "240", str "301", str "410", str "443", str "667"]),
   (str "Massachusetts", [str "339", str "351", str "413", str "508", str "617", str "774", str "781", str "857", str "978"]),
   (str "Michigan", [str "231", str "248", str "269", str "313", str "517", str "586", str "616", str "734", str "810", str "906", str "947", str "989"]),
   (str "Minnesota", [str "218", str "320", str "507", str "612", str "651", str "763", str "952"]),
   (str "Mississippi", [str "228", str "601", str "662", str "769"]),
   (str "Missouri", [str "314", str "417", str "573", str "636", str "660", str "816"]),
   (str "Montana", [str "406"]),
   (str "Nebraska", [str "308", str "402", str "531"]),
   (str "Nevada", [str "702", str "725", str "775"]),
   (str "New Hampshire", [str "603"]),
   (str "New Jersey", [str "201", str "551", str "609", str "732", str "848", str "856", str "862", str "908", str "973"]),
   (str "New Mexico", [str "505", str "575"]),
   (str "New York", [str "212", str "315", str "332", str "347", str "516", str "518", str "585", str "607", str "631", str "646", str "680", str "716", str "718", str "838", str "845", str "914", str "917", str "929", str "934"]),
   (str "North Carolina", [str "252", str "336", str "704", str "743", str "828", str "910", str "919", str "980", str "984"]),
   (str "North Dakota", [str "701"]),
   (str "Ohio", [str "216", str "234", str "330", str "380", str "419", str "440", str "513", str "567", str "614", str "740", str "937"]),
   (str "Oklahoma", [str "405", str "539", str "580", str "918"]),
   (str "Oregon", [str "458", str "503", str "541", str "971"]),
   (str "Pennsylvania", [str "215", str "223", str "267", str "272", str "412", str "484", str "570", str "610", str "717", str "724", str "814", str "878"]),
   (str "Rhode Island", [str "401"]),
   (str "South Carolina", [str "803", str "843", str "854", str "864"]),
   (str "South Dakota", [str "605"]),
   (str "Tennessee", [str "423", str "615", str "629", str "731", str "865", str "901", str "931"]),
   (str "Texas", [str "210", str "214", str "254", str "281", str "325", str "346", str "361", str "409", str "430", str "432", str "469", str "512", str "682", str "713", str "726", str "737", str "806", str "817", str "830", str "832", str "903", str "915", str "936", str "940", str "956", str "972", str "979"]),
   (str "Utah", [str "385", str "435", str "801"]),
   (str "Vermont", [str "802"]),
   (str "Virginia", [str "276", str "434", str "540", str "571", str "703", str "757", str "804"]),
   (str "Washington", [str "206", str "253", str "360", str "425", str "509", str "564"]),
   (str "West Virginia", [str "304", str "681"]),
   (str "Wisconsin", [str "262", str "414", str "534", str "608", str "715", str "920"]),
   (str "Wyoming", [str "307"])]

instance : Inhabited Place := ⟨mkPlace "" "" "" ""⟩

/-- The state names in catalog (insertion) order: `list(self.public_places.keys())`. -/
def states_list : List Str := public_places.map (fun p => p.1)

/-- The uniqueness tracker `self.unique_tracker`: Python sets of previously
issued values, modelled as duplicate-free lists. -/
structure Tracker where
  full_names : List Str
  emails : List Str
  phones : List Str
  addresses : List Str
  name_hashes : List Str
  person_hashes : List Str
deriving Repr, DecidableEq

/-- The counters `self.generation_stats`. -/
structure Stats where
  collision_attempts : Nat
  unique_regenerations : Nat
  total_generated : Nat
deriving Repr, DecidableEq

/-- The mutable state owned by one `PersonaGenerator` instance. -/
structure GenState where
  tracker : Tracker
  stats : Stats
deriving Repr, DecidableEq

/-- The state of a freshly constructed generator (also the state after a reset). -/
def freshState : GenState :=
  { tracker := ⟨[], [], [], [], [], []⟩, stats := ⟨0, 0, 0⟩ }

def addCollision (s : GenState) : GenState :=
  { s with stats := { s.stats with collision_attempts := s.stats.collision_attempts + 1 } }

def addRegen (s : GenState) : GenState :=
  { s with stats := { s.stats with unique_regenerations := s.stats.unique_regenerations + 1 } }

def addTotal (s : GenState) : GenState :=
  { s with stats := { s.stats with total_generated := s.stats.total_generated + 1 } }

def addFullName (x : Str) (s : GenState) : GenState :=
  { s with tracker := { s.tracker with full_names := insertSet x s.tracker.full_names } }

def addEmail (x : Str) (s : GenState) : GenState :=
  { s with tracker := { s.tracker with emails := insertSet x s.tracker.emails } }

def addPhone (x : Str) (s : GenState) : GenState :=
  { s with tracker := { s.tracker with phones := insertSet x s.tracker.phones } }

def addAddress (x : Str) (s : GenState) : GenState :=
  { s with tracker := { s.tracker with addresses := insertSet x s.tracker.addresses } }

def addNameHash (x : Str) (s : GenState) : GenState :=
  { s with tracker := { s.tracker with name_hashes := insertSet x s.tracker.name_hashes } }

def addPersonHash (x : Str) (s : GenState) : GenState :=
  { s with tracker := { s.tracker with person_hashes := insertSet x s.tracker.person_hashes } }

/-- `PersonaGenerator.generate_unique_hash`: the md5 hex digest of the
pipe-joined arguments; the digest function itself is a parameter. -/
def generate_unique_hash (md5 : Str → Str) (args : List Str) : Str :=
  md5 (joinPipe args)

/-- The retry loop of `generate_phone_number`; `area` is the most recently
attempted area code, which the fallback reuses once the fuel runs out. -/
def phoneGo (codes : List Str) : Nat → Str → GenState → Env → Str × GenState × Env
  | 0, area, s, e =>
    let unique_num := s.tracker.phones.length
    let phone := str "(" ++ area ++ str ") 999-" ++ fmt0 4 unique_num
    (phone, addPhone phone s, e)
  | fuel + 1, _, s, e =>
    let ac := choice codes (str "555") e
    let exch := randint 200 999 ac.2
    let subscriber := randint 1000 9999 exch.2
    let phone := str "(" ++ ac.1 ++ str ") " ++ decRepr exch.1 ++ str "-" ++ decRepr subscriber.1
    if phone ∈ s.tracker.phones then
      phoneGo codes fuel ac.1 (addCollision s) subscriber.2
    else
      (phone, addPhone phone s, subscriber.2)

/-- `PersonaGenerator.generate_phone_number` (`self.area_codes.get(state, ['555'])`,
then up to 100 attempts). -/
def generate_phone_number (state : Str) (s : GenState) (e : Env) : Str × GenState × Env :=
  phoneGo ((List.lookup state area_codes).getD [str "555"]) 100 (str "555") s e

/-- The fixed list of placeholder email domains. -/
def email_domains : List Str :=
  [str "email.com", str "mail.com", str "inbox.com", str "webmail.com", str "postbox.com",
   str "fastmail.com", str "promail.com", str "workmail.com"]

/-- The suffix draw `random.randint(1, 9999) if attempt > 10 else random.randint(1, 99)`. -/
def emailNum (attempt : Nat) (e : Env) : Nat × Env :=
  if attempt > 10 then randint 1 9999 e else randint 1 99 e

/-- The retry loop of `generate_unique_email`; `attempt` is the 0-based Python
loop index and the fuel counts the remaining attempts. -/
def emailGo (first last : Str) : Nat → Nat → GenState → Env → Str × GenState × Env
  | _, 0, s, e =>
    let te := e.nextTime
    let timestamp := te.1 % 1000000
    let email :=
      lower first ++ str "." ++ lower last ++ decRepr timestamp ++ str "@" ++ email_domains.getD 0 []
    (email, addEmail email s, te.2)
  | attempt, fuel + 1, s, e =>
    let patterns := [lower first ++ str "." ++ lower last,
                     lower (first.take 1) ++ lower last,
                     lower first ++ lower (last.take 1),
                     lower first ++ str "_" ++ lower last]
    let pc := choice patterns [] e
    let nc := emailNum attempt pc.2
    let dc := choice email_domains [] nc.2
    let email := pc.1 ++ decRepr nc.1 ++ str "@" ++ dc.1
    if email ∈ s.tracker.emails then
      emailGo first last (attempt + 1) fuel (addCollision s) dc.2
    else
      (email, addEmail email s, dc.2)

/-- `PersonaGenerator.generate_unique_email` (up to 50 attempts, then the
timestamp fallback). -/
def generate_unique_email (first last : Str) (s : GenState) (e : Env) : Str × GenState × Env :=
  emailGo first last 0 50 s e

/-- The first-name draw `random.choice(self.first_names[gender])`. -/
def pickFirst (gender : Str) (e : Env) : Str × Env :=
  if gender = str "male" then choice first_names_male [] e else choice first_names_female [] e

/-- The retry loop of `generate_unique_name`; `firstL`/`lastL` are the most
recently attempted names, which the fallback reuses once the fuel runs out. -/
def nameGo (md5 : Str → Str) : Nat → Str → Str → GenState → Env → (Str × Str) × GenState × Env
  | 0, firstL, lastL, s, e =>
    let s1 := addRegen s
    let unique_id := s1.tracker.full_names.length
    let middle_initial := Char.ofNat (65 + unique_id % 26)
    let first := firstL ++ str " " ++ [middle_initial]
    let full := first ++ str " " ++ lastL
    let s2 := addFullName full s1
    let name_hash := generate_unique_hash md5 [first, lastL]
    ((first, lastL), addNameHash name_hash s2, e)
  | fuel + 1, _, _, s, e =>
    let gc := choice [str "male", str "female"] [] e
    let fc := pickFirst gc.1 gc.2
    let lc := choice last_names [] fc.2
    let full := fc.1 ++ str " " ++ lc.1
    let name_hash := generate_unique_hash md5 [fc.1, lc.1]
    if full ∉ s.tracker.full_names ∧ name_hash ∉ s.tracker.name_hashes then
      ((fc.1, lc.1), addNameHash name_hash (addFullName full s), lc.2)
    else
      nameGo md5 fuel fc.1 lc.1 (addCollision s) lc.2

/-- `PersonaGenerator.generate_unique_name` (up to 200 attempts, then the
middle-initial fallback). -/
def generate_unique_name (md5 : Str → Str) (s : GenState) (e : Env) : (Str × Str) × GenState × Env :=
  nameGo md5 200 [] [] s e

/-- A Python `KeyError` (raised by `self.public_places[state]` and
`self.state_codes[state]` for states absent from the catalogs). -/
inductive Err
  | keyError
deriving Repr, DecidableEq

/-- The composed full address string
`f"{place['address']}, {place['city']}, {self.state_codes[state]} {place['zip']}"`. -/
def fullAddressOf (code : Str) (p : Place) : Str :=
  p.paddress ++ str ", " ++ p.pcity ++ str ", " ++ code ++ str " " ++ p.pzip

/-- The retry loop of `generate_unique_address`; `attempt` is the 0-based
Python loop index.  The state-code dictionary access sits inside the loop
body, exactly as in the source. -/
def addressGo (state : Str) (places : List Place) :
    Nat → Nat → GenState → Env → Except Err Place × GenState × Env
  | _, 0, s, e =>
    let pc := choice places default e
    (.ok pc.1, s, pc.2)
  | attempt, fuel + 1, s, e =>
    let pc := choice places default e
    match List.lookup state state_codes with
    | none => (.error .keyError, s, pc.2)
    | some code =>
      let full_address := fullAddressOf code pc.1
      if full_address ∉ s.tracker.addresses ∨ attempt > places.length then
        (.ok pc.1, if full_address ∉ s.tracker.addresses then addAddress full_address s else s, pc.2)
      else
        addressGo state places (attempt + 1) fuel (addCollision s) pc.2

/-- `PersonaGenerator.generate_unique_address` (`self.public_places[state]`
raises for unknown states; then up to `2 * len(places)` attempts). -/
def generate_unique_address (state : Str) (s : GenState) (e : Env) :
    Except Err Place × GenState × Env :=
  match List.lookup state public_places with
  | none => (.error .keyError, s, e)
  | some places => addressGo state places 0 (places.length * 2) s e

/-- A generated persona record (the dictionary built by `generate_persona`). -/
structure Persona where
  pid : Str
  firstName : Str
  lastName : Str
  email : Str
  phone : Str
  locationName : Str
  streetAddress : Str
  city : Str
  stateCode : Str
  zipCode : Str
  fullAddress : Str
  ptype : Str
  generatedAt : Str
deriving Repr, DecidableEq

/-- The state-selection line of `generate_persona`:
`state if state and state != 'Mixed' else random.choice(list(self.public_places.keys()))`. -/
def resolveState (state : Option Str) (e : Env) : Str × Env :=
  match state with
  | some t => if t ≠ [] ∧ t ≠ str "Mixed" then (t, e) else choice states_list [] e
  | none => choice states_list [] e

/-- `PersonaGenerator.generate_persona`.  A `KeyError` escaping a field
generator aborts the call but leaves all mutations made so far in place,
exactly as a Python exception would.  The two branches of the defensive
fingerprint check share their tail in the source; it is duplicated here. -/
def generate_persona (md5 : Str → Str) (strf : Nat → Str) (state : Option Str)
    (s : GenState) (e : Env) : Except Err Persona × GenState × Env :=
  let se := resolveState state e
  let selected_state := se.1
  let nr := generate_unique_name md5 s se.2
  let first_name := nr.1.1
  let last_name := nr.1.2
  let er := generate_unique_email (firstToken first_name) last_name nr.2.1 nr.2.2
  let email := er.1
  let pr := generate_phone_number selected_state er.2.1 er.2.2
  let phone := pr.1
  match generate_unique_address selected_state pr.2.1 pr.2.2 with
  | (.error er2, s2, e2) => (.error er2, s2, e2)
  | (.ok place, s2, e2) =>
    match List.lookup selected_state state_codes with
    | none => (.error .keyError, s2, e2)
    | some code =>
      let te := e2.nextTime
      let persona : Persona :=
        { pid := str "P" ++ fmt0 6 (s2.stats.total_generated + 1)
          firstName := first_name
          lastName := last_name
          email := email
          phone := phone
          locationName := place.pname
          streetAddress := place.paddress
          city := place.pcity
          stateCode := code
          zipCode := place.pzip
          fullAddress := fullAddressOf code place
          ptype := str "Public Place"
          generatedAt := strf te.1 }
      let persona_hash :=
        generate_unique_hash md5 [first_name, last_name, email, phone, persona.fullAddress]
      if persona_hash ∈ s2.tracker.person_hashes then
        let s3 := addRegen s2
        let xr := randint 1 99 te.2
        let er3 := generate_unique_email (firstToken first_name ++ decRepr xr.1) last_name s3 xr.2
        let persona2 := { persona with email := er3.1 }
        let persona_hash2 :=
          generate_unique_hash md5 [first_name, last_name, er3.1, phone, persona.fullAddress]
        (.ok persona2, addTotal (addPersonHash persona_hash2 er3.2.1), er3.2.2)
      else
        (.ok persona, addTotal (addPersonHash persona_hash s2), te.2)

/-- `PersonaGenerator.generate_multiple_personas` as a fuelled loop: an
exception escaping `generate_persona` aborts the whole batch. -/
def genMultipleGo (md5 : Str → Str) (strf : Nat → Str) (state : Option Str) :
    Nat → GenState → Env → Except Err (List Persona) × GenState × Env
  | 0, s, e => (.ok [], s, e)
  | n + 1, s, e =>
    match generate_persona md5 strf state s e with
    | (.error er, s, e) => (.error er, s, e)
    | (.ok p, s, e) =>
      match genMultipleGo md5 strf state n s e with
      | (.ok ps, s, e) => (.ok (p :: ps), s, e)
      | (.error er, s, e) => (.error er, s, e)

/-- `PersonaGenerator.generate_multiple_personas` (`for i in range(count)`:
a non-positive count yields an empty range, hence no iterations). -/
def generate_multiple_personas (md5 : Str → Str) (strf : Nat → Str) (count : Int)
    (state : Option Str) (s : GenState) (e : Env) :
    Except Err (List Persona) × GenState × Env :=
  genMultipleGo md5 strf state count.toNat s e

/-- States of one generator/tracker lifetime: reachable from a fresh instance
by method calls (a reset starts a new lifetime at `freshState`). -/
inductive Reachable (md5 : Str → Str) (strf : Nat → Str) : GenState → Prop
  | fresh : Reachable md5 strf freshState
  | nameStep (s : GenState) (e : Env) :
      Reachable md5 strf s → Reachable md5 strf (generate_unique_name md5 s e).2.1
  | emailStep (first last : Str) (s : GenState) (e : Env) :
      Reachable md5 strf s → Reachable md5 strf (generate_unique_email first last s e).2.1
  | phoneStep (state : Str) (s : GenState) (e : Env) :
      Reachable md5 strf s → Reachable md5 strf (generate_phone_number state s e).2.1
  | addressStep (state : Str) (s : GenState) (e : Env) :
      Reachable md5 strf s → Reachable md5 strf (generate_unique_address state s e).2.1
  | personaStep (state : Option Str) (s : GenState) (e : Env) :
      Reachable md5 strf s → Reachable md5 strf (generate_persona md5 strf state s e).2.1

/-- The canonical shape of a randomly generated phone string. -/
def phoneStr (a x y : Str) : Str := str "(" ++ a ++ str ") " ++ x ++ str "-" ++ y

/-- Environment used to exercise the unknown-state scenario. -/
def envC1 : Env := ⟨[0, 0, 0, 0, 0, 0, 0, 0, 0], []⟩


/-- A state request honoured by the UI: `None`, the falsy empty string,
`"Mixed"`, or a catalog state name. -/
def ValidReq : Option Str → Prop
  | none => True
  | some t => t = [] ∨ t = str "Mixed" ∨ t ∈ states_list

instance decValidReq : (r : Option Str) → Decidable (ValidReq r)
  | none => .isTrue trivial
  | some t => inferInstanceAs (Decidable (t = [] ∨ t = str "Mixed" ∨ t ∈ states_list))

def dummyPersona : Persona :=
  { pid := [], firstName := [], lastName := [], email := [], phone := [], locationName := [],
    streetAddress := [], city := [], stateCode := [], zipCode := [], fullAddress := [],
    ptype := [], generatedAt := [] }

def runSeq (md5 : Str → Str) (strf : Nat → Str) :
    List (Option Str) → GenState → Env → List Persona × GenState × Env
  | [], s, e => ([], s, e)
  | req :: reqs, s, e =>
    match generate_persona md5 strf req s e with
    | (.ok p, s2, e2) =>
      let r := runSeq md5 strf reqs s2 e2
      (p :: r.1, r.2.1, r.2.2)
    | (.error _, s2, e2) => ([], s2, e2)


/-- Modelled from the claim's wording, for comparison with the source: the
suffix is drawn from 1-99 on the first 10 attempts (0-based indices 0-9) and
from 1-9999 on every later attempt. -/
def emailNumClaim (attempt : Nat) (e : Env) : Nat × Env :=
  if attempt < 10 then randint 1 99 e else randint 1 9999 e

/-- The amended suffix schedule the source actually implements: the first
ELEVEN attempts (indices 0-10) draw from 1-99, later attempts from 1-9999. -/
def emailNumAmended (attempt : Nat) (e : Env) : Nat × Env :=
  if attempt ≤ 10 then randint 1 99 e else randint 1 9999 e

/-- The email retry loop with the claim's suffix schedule substituted. -/
def emailGoClaim (first last : Str) : Nat → Nat → GenState → Env → Str × GenState × Env
  | _, 0, s, e =>
    let te := e.nextTime
    let timestamp := te.1 % 1000000
    let email :=
      lower first ++ str "." ++ lower last ++ decRepr timestamp ++ str "@" ++ email_domains.getD 0 []
    (email, addEmail email s, te.2)
  | attempt, fuel + 1, s, e =>
    let patterns := [lower first ++ str "." ++ lower last,
                     lower (first.take 1) ++ lower last,
                     lower first ++ lower (last.take 1),
                     lower first ++ str "_" ++ lower last]
    let pc := choice patterns [] e
    let nc := emailNumClaim attempt pc.2
    let dc := choice email_domains [] nc.2
    let email := pc.1 ++ decRepr nc.1 ++ str "@" ++ dc.1
    if email ∈ s.tracker.emails then
      emailGoClaim first last (attempt + 1) fuel (addCollision s) dc.2
    else
      (email, addEmail email s, dc.2)

/-- The email generator as the claim describes it. -/
def generate_unique_email_claim (first last : Str) (s : GenState) (e : Env) :
    Str × GenState × Env :=
  emailGoClaim first last 0 50 s e

/-- The email retry loop with the amended suffix schedule substituted. -/
def emailGoAmended (first last : Str) : Nat → Nat → GenState → Env → Str × GenState × Env
  | _, 0, s, e =>
    let te := e.nextTime
    let timestamp := te.1 % 1000000
    let email :=
      lower first ++ str "." ++ lower last ++ decRepr timestamp ++ str "@" ++ email_domains.getD 0 []
    (email, addEmail email s, te.2)
  | attempt, fuel + 1, s, e =>
    let patterns := [lower first ++ str "." ++ lower last,
                     lower (first.take 1) ++ lower last,
                     lower first ++ lower (last.take 1),
                     lower first ++ str "_" ++ lower last]
    let pc := choice patterns [] e
    let nc := emailNumAmended attempt pc.2
    let dc := choice email_domains [] nc.2
    let email := pc.1 ++ decRepr nc.1 ++ str "@" ++ dc.1
    if email ∈ s.tracker.emails then
      emailGoAmended first last (attempt + 1) fuel (addCollision s) dc.2
    else
      (email, addEmail email s, dc.2)

/-- The email generator with the amended suffix schedule. -/
def generate_unique_email_amended (first last : Str) (s : GenState) (e : Env) :
    Str × GenState × Env :=
  emailGoAmended first last 0 50 s e

/-- A tracker that has already issued `james.smith1@email.com`. -/
def emailState0 : GenState :=
  (generate_unique_email (str "James") (str "Smith") freshState ⟨[0, 0, 0], []⟩).2.1

/-- A random stream producing ten collisions with the tracked email, then the
draws 99 and 1 on the 11th and 12th attempts. -/
def envC8 : Env :=
  ⟨List.replicate 30 0 ++ [0, 99, 0] ++ [0, 1, 0], []⟩

/-- Iterated direct calls to the name generator, one environment per call. -/
def nameCalls (md5 : Str → Str) : List Env → GenState → List (Str × Str) × GenState
  | [], s => ([], s)
  | e :: es, s =>
    let r := generate_unique_name md5 s e
    let rest := nameCalls md5 es r.2.1
    (r.1 :: rest.1, rest.2)

/-- A call schedule that exhausts the name retry budget on calls 2 and 28,
with 26 fresh names in between: call 1 issues "James Smith", call 2 collides
200 times on it and falls back, calls 3-27 issue fresh names, call 28 again
collides 200 times on "James Smith" and falls back. -/
def envsC4 : List Env :=
  [⟨List.replicate 3 0, []⟩, ⟨List.replicate 600 0, []⟩] ++
    (List.range 25).map (fun i => ⟨[0, i + 1, 0], []⟩) ++ [⟨List.replicate 600 0, []⟩]

def wyPhone (n : Nat) : Str := str "(307) 999-" ++ decRepr n

def wyPhones (base : Nat) : Nat → List Str
  | 0 => []
  | k + 1 => wyPhone (base + k) :: wyPhones base k

def wyState (base k : Nat) : GenState :=
  { tracker := ⟨[], [], wyPhones base k, [], [], []⟩, stats := ⟨0, 0, 0⟩ }

def cycValsC6 : Nat → List Nat
  | 0 => []
  | n + 1 => 0 :: 799 :: 1233 :: cycValsC6 n

def envC6 : Env := ⟨cycValsC6 100, []⟩

def cycValsC2 : Nat → List Nat
  | 0 => []
  | n + 1 => 0 :: 799 :: 235 :: cycValsC2 n

def envC2 : Env :=
  ⟨[0, 0, 0, 0, 0, 0, 0, 799, 235, 0] ++ ([0, 1, 0] ++ [0, 0, 0] ++ cycValsC2 100 ++ [1]), [5, 6]⟩

def allCodes : List Str := (area_codes.map (fun p => p.2)).flatten ++ [str "555"]

def RandomPhone (p : Str) : Prop :=
  ∃ a ex sub, a ∈ allCodes ∧ 200 ≤ ex ∧ ex ≤ 999 ∧ 1000 ≤ sub ∧ sub ≤ 9999 ∧
    p = str "(" ++ a ++ str ") " ++ decRepr ex ++ str "-" ++ decRepr sub

def FallbackPhone (bound : Nat) (p : Str) : Prop :=
  ∃ a m, a ∈ allCodes ∧ m < bound ∧ p = str "(" ++ a ++ str ") 999-" ++ fmt0 4 m

def PhoneInv (s : GenState) : Prop :=
  ∀ p ∈ s.tracker.phones, RandomPhone p ∨ FallbackPhone s.tracker.phones.length p

def placeWy0 : Place := mkPlace "Laramie County Library" "2200 Pioneer Ave" "Cheyenne" "82001"

def c9Hash : Str :=
  generate_unique_hash id [str "James", str "Smith", str "james.smith1@email.com",
    str "(307) 200-1000", fullAddressOf (str "WY") placeWy0]

def c9State : GenState := { tracker := ⟨[], [], [], [], [], [c9Hash]⟩, stats := ⟨0, 0, 0⟩ }

def c9Env : Env := ⟨[0, 0, 0, 0, 0, 0, 0, 0, 0, 0, 5, 0, 0, 0], [9, 7]⟩

def PipeFree (s : Str) : Prop := '|' ∉ s

instance decPipeFree (s : Str) : Decidable (PipeFree s) :=
  inferInstanceAs (Decidable ('|' ∉ s))

def fullNameOf (p : Str × Str) : Str := p.1 ++ str " " ++ p.2

def pairHash (md5 : Str → Str) (p : Str × Str) : Str := generate_unique_hash md5 [p.1, p.2]

def SetEq (a b : List Str) : Prop := ∀ x, x ∈ a ↔ x ∈ b

def NamesInv (md5 : Str → Str) (s : GenState) : Prop :=
  ∃ ps : List (Str × Str),
    (∀ p ∈ ps, PipeFree p.1 ∧ PipeFree p.2) ∧
    SetEq s.tracker.full_names (ps.map fullNameOf) ∧
    SetEq s.tracker.name_hashes (ps.map (pairHash md5))

-- THEOREMS-BELOW

theorem decChars_fuel : ∀ (n f g : Nat), n < f → n < g → decChars f n = decChars g n := by
  intro n
  induction n using Nat.strong_induction_on with
  | _ n ih =>
    intro f g hf hg
    match f, g with
    | f + 1, g + 1 =>
      simp only [decChars]
      by_cases h : n < 10
      · simp [h]
      · have hd : n / 10 < n := Nat.div_lt_self (by omega) (by omega)
        simp only [if_neg h]
        rw [ih (n / 10) hd f g (by omega) (by omega)]

theorem decRepr_eq_decChars (f n : Nat) (h : n < f) : decRepr n = decChars f n :=
  decChars_fuel n (n + 1) f (Nat.lt_succ_self n) h

theorem decRepr_unfold (n : Nat) (h : ¬ n < 10) :
    decRepr n = decRepr (n / 10) ++ [digitChar (n % 10)] := by
  have h1 : decRepr n = decChars (n + 1) n := rfl
  rw [h1]
  have h2 : n + 1 = n + 1 := rfl
  simp only [decChars, if_neg h]
  rw [← decRepr_eq_decChars n (n / 10) (Nat.lt_of_lt_of_le (Nat.div_lt_self (by omega) (by omega)) (by omega))]

theorem decRepr_lt10 (n : Nat) (h : n < 10) : decRepr n = [digitChar n] := by
  simp [decRepr, decChars, h]

theorem valOf_snoc (a : Str) (c : Char) : valOf (a ++ [c]) = 10 * valOf a + (c.toNat - 48) := by
  simp [valOf, List.foldl_append]

theorem digitChar_toNat : ∀ n : Nat, n < 10 → (digitChar n).toNat = 48 + n := by decide

theorem valOf_decRepr : ∀ n : Nat, valOf (decRepr n) = n := by
  intro n
  induction n using Nat.strong_induction_on with
  | _ n ih =>
    by_cases h : n < 10
    · rw [decRepr_lt10 n h]
      simp [valOf, digitChar_toNat n h]
    · rw [decRepr_unfold n h]
      rw [valOf_snoc]
      have hd : n / 10 < n := Nat.div_lt_self (by omega) (by omega)
      rw [ih (n / 10) hd]
      have hm : n % 10 < 10 := Nat.mod_lt _ (by omega)
      rw [digitChar_toNat _ hm]
      omega

theorem decRepr_injective {m n : Nat} (h : decRepr m = decRepr n) : m = n := by
  have := valOf_decRepr m
  rw [h, valOf_decRepr] at this
  omega

theorem valOf_replicate_zero (k : Nat) (s : Str) :
    valOf (List.replicate k '0' ++ s) = valOf s := by
  induction k with
  | zero => simp
  | succ k ih =>
    simp only [List.replicate_succ, List.cons_append]
    have : valOf (('0' :: (List.replicate k '0' ++ s))) =
        (List.replicate k '0' ++ s).foldl (fun a c => 10 * a + (c.toNat - 48)) 0 := by
      simp [valOf]
    simpa [valOf] using ih

theorem valOf_fmt0 (w n : Nat) : valOf (fmt0 w n) = n := by
  rw [fmt0, valOf_replicate_zero, valOf_decRepr]

theorem fmt0_injective {w m n : Nat} (h : fmt0 w m = fmt0 w n) : m = n := by
  have := valOf_fmt0 w m
  rw [h, valOf_fmt0] at this
  omega

theorem decRepr_length_ne (n : Nat) : decRepr n ≠ [] := by
  by_cases h : n < 10
  · rw [decRepr_lt10 n h]; simp
  · rw [decRepr_unfold n h]; simp

theorem decRepr_length_le : ∀ k n : Nat, 1 ≤ k → n < 10 ^ k → (decRepr n).length ≤ k := by
  intro k
  induction k with
  | zero => omega
  | succ k ih =>
    intro n _ hn
    by_cases h : n < 10
    · rw [decRepr_lt10 n h]
      simp only [List.length_cons, List.length_nil]
      omega
    · rw [decRepr_unfold n h]
      have hk : 1 ≤ k := by
        by_contra hk0
        have : k = 0 := by omega
        subst this
        simp [pow_succ] at hn
        omega
      have : n / 10 < 10 ^ k := by
        rw [Nat.div_lt_iff_lt_mul (by omega)]
        calc n < 10 ^ (k + 1) := hn
        _ = 10 ^ k * 10 := by ring
      have := ih (n / 10) hk this
      simp [List.length_append]
      omega

theorem decRepr_length_ge : ∀ k n : Nat, 10 ^ k ≤ n → k + 1 ≤ (decRepr n).length := by
  intro k
  induction k with
  | zero =>
    intro n _
    have h0 : 0 < (decRepr n).length := List.length_pos.mpr (decRepr_length_ne n)
    omega
  | succ k ih =>
    intro n hn
    have h10 : ¬ n < 10 := by
      have : 10 ≤ 10 ^ (k + 1) := by
        calc (10 : Nat) = 10 ^ 1 := by ring
        _ ≤ 10 ^ (k + 1) := Nat.pow_le_pow_right (by omega) (by omega)
      omega
    rw [decRepr_unfold n h10]
    have : 10 ^ k ≤ n / 10 := by
      rw [Nat.le_div_iff_mul_le (by omega)]
      calc 10 ^ k * 10 = 10 ^ (k + 1) := by ring
      _ ≤ n := hn
    have := ih (n / 10) this
    simp [List.length_append]
    omega

theorem digitChar_ne_zero : ∀ n : Nat, 1 ≤ n → n < 10 → digitChar n ≠ '0' := by decide

theorem decRepr_head_ne_zero : ∀ n : Nat, 1 ≤ n → ∃ c t, decRepr n = c :: t ∧ c ≠ '0' := by
  intro n
  induction n using Nat.strong_induction_on with
  | _ n ih =>
    intro hn
    by_cases h : n < 10
    · exact ⟨digitChar n, [], decRepr_lt10 n h, digitChar_ne_zero n hn h⟩
    · obtain ⟨c, t, hct, hc⟩ := ih (n / 10) (Nat.div_lt_self (by omega) (by omega)) (by omega)
      refine ⟨c, t ++ [digitChar (n % 10)], ?_, hc⟩
      rw [decRepr_unfold n h, hct]
      simp

theorem fmt0_head_zero (w n : Nat) (h : (decRepr n).length < w) :
    ∃ t, fmt0 w n = '0' :: t := by
  rw [fmt0]
  have : w - (decRepr n).length = (w - (decRepr n).length - 1) + 1 := by omega
  rw [this, List.replicate_succ]
  exact ⟨List.replicate (w - (decRepr n).length - 1) '0' ++ decRepr n, rfl⟩

/-- C1: requesting the unknown state "Atlantis" is rejected only by a late
`KeyError` at the address-selection step: before that the call records a
name, an email and a phone number built with the silent placeholder area
code 555 into the uniqueness tracker — contradicting the fail-fast,
tracker-unmutated contract of the specification. -/
theorem C1_invalid_state_rejected_late_tracker_mutated :
    List.lookup (str "Atlantis") public_places = none ∧
    (generate_persona id decRepr (some (str "Atlantis")) freshState envC1).1 =
      .error .keyError ∧
    (generate_persona id decRepr (some (str "Atlantis")) freshState envC1).2.1 =
      { tracker :=
          { full_names := [str "James Smith"],
            emails := [str "james.smith1@email.com"],
            phones := [str "(555) 200-1000"],
            addresses := [],
            name_hashes := [str "James|Smith"],
            person_hashes := [] },
        stats := ⟨0, 0, 0⟩ } := by
  refine ⟨by rfl, by rfl, by rfl⟩


theorem lookup_of_mem_keys {β : Type} :
    ∀ (l : List (Str × β)) (a : Str), a ∈ l.map (fun p => p.1) → ∃ b, List.lookup a l = some b := by
  intro l
  induction l with
  | nil => simp
  | cons hd tl ih =>
    intro a ha
    simp only [List.map_cons, List.mem_cons] at ha
    by_cases he : a = hd.1
    · have hbeq : (a == hd.1) = true := beq_iff_eq.mpr he
      exact ⟨hd.2, by simp [List.lookup, hbeq]⟩
    · have hbeq : (a == hd.1) = false := beq_eq_false_iff_ne.mpr he
      rcases ha with h | h
      · exact absurd h he
      · rcases ih a h with ⟨b, hb⟩
        exact ⟨b, by simp [List.lookup, hbeq, hb]⟩

theorem lookup_some_mem {β : Type} :
    ∀ (l : List (Str × β)) (a : Str) (b : β), List.lookup a l = some b → (a, b) ∈ l := by
  intro l
  induction l with
  | nil => intro a b h; simp [List.lookup] at h
  | cons hd tl ih =>
    intro a b h
    by_cases he : a = hd.1
    · have hbeq : (a == hd.1) = true := beq_iff_eq.mpr he
      simp only [List.lookup, hbeq] at h
      cases h
      cases hd
      subst he
      exact List.mem_cons_self _ _
    · have hbeq : (a == hd.1) = false := beq_eq_false_iff_ne.mpr he
      simp only [List.lookup, hbeq] at h
      exact List.mem_cons_of_mem _ (ih a b h)

theorem choice_mem {α : Type} (l : List α) (d : α) (e : Env) (h : l ≠ []) :
    (choice l d e).1 ∈ l := by
  have hl : 0 < l.length := List.length_pos.mpr h
  have hi : (e.nextRand.1 % l.length) < l.length := Nat.mod_lt _ hl
  simp only [choice]
  rw [List.getD_eq_getElem l d hi]
  exact List.getElem_mem hi

theorem states_list_ne_nil : states_list ≠ [] := by decide

theorem mixed_not_state : str "Mixed" ∉ states_list := by decide

theorem nil_not_state : ([] : Str) ∉ states_list := by decide

theorem states_eq_code_keys : states_list = state_codes.map (fun p => p.1) := by decide

theorem places_nonempty : ∀ p ∈ public_places, p.2 ≠ [] := by decide

theorem resolveState_mem (state : Option Str) (e : Env) (h : ValidReq state) :
    (resolveState state e).1 ∈ states_list := by
  match state with
  | none => exact choice_mem _ _ _ states_list_ne_nil
  | some t =>
    rcases h with h | h | h
    · subst h
      simp only [resolveState]
      rw [if_neg (by simp)]
      exact choice_mem _ _ _ states_list_ne_nil
    · subst h
      simp only [resolveState]
      rw [if_neg (by simp)]
      exact choice_mem _ _ _ states_list_ne_nil
    · simp only [resolveState]
      by_cases hif : t ≠ [] ∧ t ≠ str "Mixed"
      · rw [if_pos hif]; exact h
      · rw [if_neg hif]; exact choice_mem _ _ _ states_list_ne_nil

theorem state_has_places (st : Str) (h : st ∈ states_list) :
    ∃ places, List.lookup st public_places = some places ∧ places ≠ [] := by
  rcases lookup_of_mem_keys public_places st h with ⟨places, hp⟩
  exact ⟨places, hp, places_nonempty _ (lookup_some_mem _ _ _ hp)⟩

theorem state_has_code (st : Str) (h : st ∈ states_list) :
    ∃ code, List.lookup st state_codes = some code := by
  apply lookup_of_mem_keys
  rw [← states_eq_code_keys]
  exact h

theorem nameGo_fields (md5 : Str → Str) :
    ∀ (fuel : Nat) (f l : Str) (s : GenState) (e : Env),
      (nameGo md5 fuel f l s e).2.1.tracker.emails = s.tracker.emails ∧
      (nameGo md5 fuel f l s e).2.1.tracker.phones = s.tracker.phones ∧
      (nameGo md5 fuel f l s e).2.1.tracker.addresses = s.tracker.addresses ∧
      (nameGo md5 fuel f l s e).2.1.tracker.person_hashes = s.tracker.person_hashes ∧
      (nameGo md5 fuel f l s e).2.1.stats.total_generated = s.stats.total_generated := by
  intro fuel
  induction fuel with
  | zero =>
    intro f l s e
    simp [nameGo, addRegen, addFullName, addNameHash]
  | succ fuel ih =>
    intro f l s e
    simp only [nameGo]
    split
    · simp [addFullName, addNameHash]
    · exact ih _ _ (addCollision s) _

theorem emailGo_fields (first last : Str) :
    ∀ (fuel attempt : Nat) (s : GenState) (e : Env),
      (emailGo first last attempt fuel s e).2.1.tracker.full_names = s.tracker.full_names ∧
      (emailGo first last attempt fuel s e).2.1.tracker.phones = s.tracker.phones ∧
      (emailGo first last attempt fuel s e).2.1.tracker.addresses = s.tracker.addresses ∧
      (emailGo first last attempt fuel s e).2.1.tracker.name_hashes = s.tracker.name_hashes ∧
      (emailGo first last attempt fuel s e).2.1.tracker.person_hashes = s.tracker.person_hashes ∧
      (emailGo first last attempt fuel s e).2.1.stats.total_generated = s.stats.total_generated ∧
      (emailGo first last attempt fuel s e).2.1.stats.unique_regenerations = s.stats.unique_regenerations ∧
      (emailGo first last attempt fuel s e).2.1.tracker.emails =
        insertSet (emailGo first last attempt fuel s e).1 s.tracker.emails := by
  intro fuel
  induction fuel with
  | zero =>
    intro attempt s e
    simp [emailGo, addEmail]
  | succ fuel ih =>
    intro attempt s e
    simp only [emailGo]
    split
    · exact ih (attempt + 1) (addCollision s) _
    · simp [addEmail]

theorem phoneGo_fields (codes : List Str) :
    ∀ (fuel : Nat) (area : Str) (s : GenState) (e : Env),
      (phoneGo codes fuel area s e).2.1.tracker.full_names = s.tracker.full_names ∧
      (phoneGo codes fuel area s e).2.1.tracker.emails = s.tracker.emails ∧
      (phoneGo codes fuel area s e).2.1.tracker.addresses = s.tracker.addresses ∧
      (phoneGo codes fuel area s e).2.1.tracker.name_hashes = s.tracker.name_hashes ∧
      (phoneGo codes fuel area s e).2.1.tracker.person_hashes = s.tracker.person_hashes ∧
      (phoneGo codes fuel area s e).2.1.stats.total_generated = s.stats.total_generated ∧
      (phoneGo codes fuel area s e).2.1.stats.unique_regenerations = s.stats.unique_regenerations ∧
      (phoneGo codes fuel area s e).2.1.tracker.phones =
        insertSet (phoneGo codes fuel area s e).1 s.tracker.phones := by
  intro fuel
  induction fuel with
  | zero =>
    intro area s e
    simp [phoneGo, addPhone]
  | succ fuel ih =>
    intro area s e
    simp only [phoneGo]
    split
    · exact ih _ (addCollision s) _
    · simp [addPhone]

theorem addressGo_ok (state : Str) (places : List Place) (code : Str)
    (hc : List.lookup state state_codes = some code) (hp : places ≠ []) :
    ∀ (fuel attempt : Nat) (s : GenState) (e : Env),
      ∃ p s2 e2, addressGo state places attempt fuel s e = (.ok p, s2, e2) ∧ p ∈ places ∧
        s2.tracker.full_names = s.tracker.full_names ∧
        s2.tracker.emails = s.tracker.emails ∧
        s2.tracker.phones = s.tracker.phones ∧
        s2.tracker.name_hashes = s.tracker.name_hashes ∧
        s2.tracker.person_hashes = s.tracker.person_hashes ∧
        s2.stats.total_generated = s.stats.total_generated ∧
        s2.stats.unique_regenerations = s.stats.unique_regenerations := by
  intro fuel
  induction fuel with
  | zero =>
    intro attempt s e
    exact ⟨_, _, _, rfl, choice_mem places default e hp, rfl, rfl, rfl, rfl, rfl, rfl, rfl⟩
  | succ fuel ih =>
    intro attempt s e
    simp only [addressGo, hc]
    split
    · exact ⟨_, _, _, rfl, choice_mem places default e hp, by split <;> simp [addAddress]⟩
    · exact ih (attempt + 1) (addCollision s) _

theorem generate_unique_name_total (md5 : Str → Str) (s : GenState) (e : Env) :
    (generate_unique_name md5 s e).2.1.stats.total_generated = s.stats.total_generated :=
  (nameGo_fields md5 200 [] [] s e).2.2.2.2

theorem generate_unique_email_total (f l : Str) (s : GenState) (e : Env) :
    (generate_unique_email f l s e).2.1.stats.total_generated = s.stats.total_generated :=
  (emailGo_fields f l 50 0 s e).2.2.2.2.2.1

theorem generate_phone_number_total (st : Str) (s : GenState) (e : Env) :
    (generate_phone_number st s e).2.1.stats.total_generated = s.stats.total_generated :=
  (phoneGo_fields _ 100 (str "555") s e).2.2.2.2.2.1

theorem generate_persona_ok (md5 : Str → Str) (strf : Nat → Str) (req : Option Str)
    (hreq : ValidReq req) (s : GenState) (e : Env) :
    ∃ p s2 e2, generate_persona md5 strf req s e = (.ok p, s2, e2) ∧
      p.pid = str "P" ++ fmt0 6 (s.stats.total_generated + 1) ∧
      s2.stats.total_generated = s.stats.total_generated + 1 := by
  have hsel : (resolveState req e).1 ∈ states_list := resolveState_mem req e hreq
  obtain ⟨places, hpl, hpne⟩ := state_has_places _ hsel
  obtain ⟨code, hcode⟩ := state_has_code _ hsel
  simp only [generate_persona]
  set se := resolveState req e with hse
  set nr := generate_unique_name md5 s se.2 with hnr
  set er := generate_unique_email (firstToken nr.1.1) nr.1.2 nr.2.1 nr.2.2 with her
  set pr := generate_phone_number se.1 er.2.1 er.2.2 with hpr
  simp only [generate_unique_address, hpl]
  obtain ⟨p, s4, e4, haddr, hmem, hf1, hf2, hf3, hf4, hf5, hf6, hf7⟩ :=
    addressGo_ok se.1 places code hcode hpne (places.length * 2) 0 pr.2.1 pr.2.2
  rw [haddr]
  simp only [hcode]
  have htot : s4.stats.total_generated = s.stats.total_generated := by
    rw [hf6, hpr, generate_phone_number_total, her, generate_unique_email_total, hnr,
      generate_unique_name_total]
  split
  · refine ⟨_, _, _, rfl, ?_, ?_⟩
    · simp [htot]
    · simp only [addTotal, addPersonHash]
      rw [generate_unique_email_total]
      simp [addRegen, htot]
  · refine ⟨_, _, _, rfl, ?_, ?_⟩
    · simp [htot]
    · simp only [addTotal, addPersonHash]
      omega

theorem genMultipleGo_ok (md5 : Str → Str) (strf : Nat → Str) (req : Option Str)
    (hreq : ValidReq req) :
    ∀ (n : Nat) (s : GenState) (e : Env), ∃ ps s2 e2,
      genMultipleGo md5 strf req n s e = (.ok ps, s2, e2) ∧ ps.length = n := by
  intro n
  induction n with
  | zero => intro s e; exact ⟨[], s, e, rfl, rfl⟩
  | succ n ih =>
    intro s e
    obtain ⟨p, s2, e2, hp, _, _⟩ := generate_persona_ok md5 strf req hreq s e
    obtain ⟨ps, s3, e3, hps, hlen⟩ := ih s2 e2
    refine ⟨p :: ps, s3, e3, ?_, by simp [hlen]⟩
    simp only [genMultipleGo, hp, hps]

theorem runSeq_ids (md5 : Str → Str) (strf : Nat → Str) :
    ∀ (reqs : List (Option Str)) (s : GenState) (e : Env), (∀ r ∈ reqs, ValidReq r) →
      (runSeq md5 strf reqs s e).1.length = reqs.length ∧
      ∀ k, k < (runSeq md5 strf reqs s e).1.length →
        ((runSeq md5 strf reqs s e).1.getD k dummyPersona).pid =
          str "P" ++ fmt0 6 (s.stats.total_generated + k + 1) := by
  intro reqs
  induction reqs with
  | nil => intro s e _; exact ⟨rfl, fun k hk => absurd hk (by simp [runSeq])⟩
  | cons req reqs ih =>
    intro s e hv
    obtain ⟨p, s2, e2, hp, hpid, htot⟩ :=
      generate_persona_ok md5 strf req (hv req (by simp)) s e
    obtain ⟨ihlen, ihids⟩ := ih s2 e2 (fun r hr => hv r (by simp [hr]))
    constructor
    · simp [runSeq, hp, ihlen]
    · intro k hk
      match k with
      | 0 => simpa [runSeq, hp] using hpid
      | k + 1 =>
        have hk2 : k < (runSeq md5 strf reqs s2 e2).1.length := by
          simp only [runSeq, hp] at hk
          simpa using hk
        have hres := ihids k hk2
        rw [htot] at hres
        simp only [runSeq, hp, List.getD_cons_succ]
        have harr : s.stats.total_generated + 1 + k + 1 = s.stats.total_generated + (k + 1) + 1 := by
          omega
        rw [harr] at hres
        exact hres

theorem runSeq_pids (md5 : Str → Str) (strf : Nat → Str) :
    ∀ (reqs : List (Option Str)) (s : GenState) (e : Env), (∀ r ∈ reqs, ValidReq r) →
      (runSeq md5 strf reqs s e).1.map (fun p => p.pid) =
        (List.range reqs.length).map
          (fun k => str "P" ++ fmt0 6 (s.stats.total_generated + k + 1)) := by
  intro reqs
  induction reqs with
  | nil => intro s e _; simp [runSeq]
  | cons req reqs ih =>
    intro s e hv
    obtain ⟨p, s2, e2, hp, hpid, htot⟩ :=
      generate_persona_ok md5 strf req (hv req (by simp)) s e
    have ihm := ih s2 e2 (fun r hr => hv r (by simp [hr]))
    rw [htot] at ihm
    simp only [runSeq, hp, List.map_cons, List.length_cons]
    rw [ihm, List.range_succ_eq_map, List.map_cons, List.map_map, hpid]
    simp only [Nat.add_zero]
    refine congrArg (List.cons _) ?_
    apply List.map_congr_left
    intro k _
    simp only [Function.comp]
    rw [show s.stats.total_generated + 1 + k + 1 = s.stats.total_generated + (k + 1) + 1 by omega]

/-- C5: within one lineage from a fresh tracker, the k-th persona (1-based)
has ID `P` followed by its index zero-padded to 6 digits, and all IDs are
distinct. -/
theorem C5_sequential_ids (md5 : Str → Str) (strf : Nat → Str) (reqs : List (Option Str))
    (h : ∀ r ∈ reqs, ValidReq r) (e : Env) :
    (runSeq md5 strf reqs freshState e).1.length = reqs.length ∧
    (∀ k, k < reqs.length →
      ((runSeq md5 strf reqs freshState e).1.map (fun p => p.pid)).getD k [] =
        str "P" ++ fmt0 6 (k + 1)) ∧
    ((runSeq md5 strf reqs freshState e).1.map (fun p => p.pid)).Nodup := by
  have hm := runSeq_pids md5 strf reqs freshState e h
  have hfresh : freshState.stats.total_generated = 0 := rfl
  rw [hfresh] at hm
  simp only [Nat.zero_add] at hm
  refine ⟨?_, ?_, ?_⟩
  · have := congrArg List.length hm
    simpa using this
  · intro k hk
    rw [hm]
    rw [List.getD_eq_getElem _ _ (by simpa using hk)]
    simp
  · rw [hm]
    apply List.Nodup.map _ (List.nodup_range _)
    intro a b hab
    have : fmt0 6 (a + 1) = fmt0 6 (b + 1) := by
      have := List.append_cancel_left hab
      exact this
    have := fmt0_injective this
    omega

/-- C5 witness: the sequential-ID theorem applied to a concrete two-request
lineage. -/
theorem C5_witness :
    (∀ r ∈ [some (str "Wyoming"), none], ValidReq r) ∧
    ((runSeq id decRepr [some (str "Wyoming"), none] freshState ⟨[0], [9]⟩).1.length = 2 ∧
    (∀ k, k < 2 →
      ((runSeq id decRepr [some (str "Wyoming"), none] freshState ⟨[0], [9]⟩).1.map
        (fun p => p.pid)).getD k [] = str "P" ++ fmt0 6 (k + 1)) ∧
    ((runSeq id decRepr [some (str "Wyoming"), none] freshState ⟨[0], [9]⟩).1.map
      (fun p => p.pid)).Nodup) := by
  refine ⟨by decide, C5_sequential_ids id decRepr [some (str "Wyoming"), none] (by decide) ⟨[0], [9]⟩⟩

/-- C3: the batch entry point performs no count validation.  A non-positive
count is not rejected: the Python `range` loop silently runs zero times and
the call returns an empty list with the state untouched and no error.  An
over-limit count (the UI maximum is 5000) is not rejected either: the core
happily generates that many personas. -/
theorem C3_counts_not_validated :
    (∀ (md5 : Str → Str) (strf : Nat → Str) (req : Option Str) (s : GenState) (e : Env),
      generate_multiple_personas md5 strf (-5) req s e = (.ok [], s, e) ∧
      generate_multiple_personas md5 strf 0 req s e = (.ok [], s, e)) ∧
    (∀ (md5 : Str → Str) (strf : Nat → Str) (s : GenState) (e : Env),
      ∃ ps s2 e2,
        generate_multiple_personas md5 strf 5001 (some (str "Wyoming")) s e = (.ok ps, s2, e2) ∧
        ps.length = 5001) := by
  constructor
  · intro md5 strf req s e
    exact ⟨rfl, rfl⟩
  · intro md5 strf s e
    have hv : ValidReq (some (str "Wyoming")) := by decide
    simpa [generate_multiple_personas] using genMultipleGo_ok md5 strf _ hv 5001 s e

/-- C7: for every cataloged state the address selector is total: it never
errors, always returns a place from that state's own 5-place catalog whatever
the tracker holds, and it touches no tracker field other than the address
set — so address reuse is the only repetition it can introduce. -/
theorem C7_address_selector_total (st : Str) (h : st ∈ states_list) (s : GenState) (e : Env) :
    ∃ p s2 e2 places, generate_unique_address st s e = (.ok p, s2, e2) ∧
      List.lookup st public_places = some places ∧ p ∈ places ∧
      s2.tracker.full_names = s.tracker.full_names ∧
      s2.tracker.emails = s.tracker.emails ∧
      s2.tracker.phones = s.tracker.phones ∧
      s2.tracker.name_hashes = s.tracker.name_hashes ∧
      s2.tracker.person_hashes = s.tracker.person_hashes ∧
      s2.stats.total_generated = s.stats.total_generated ∧
      s2.stats.unique_regenerations = s.stats.unique_regenerations := by
  obtain ⟨places, hpl, hpne⟩ := state_has_places st h
  obtain ⟨code, hcode⟩ := state_has_code st h
  obtain ⟨p, s2, e2, haddr, hmem, h1, h2, h3, h4, h5, h6, h7⟩ :=
    addressGo_ok st places code hcode hpne (places.length * 2) 0 s e
  refine ⟨p, s2, e2, places, ?_, hpl, hmem, h1, h2, h3, h4, h5, h6, h7⟩
  simp only [generate_unique_address, hpl]
  exact haddr

/-- C7 witness: the address-selector totality theorem applied to Wyoming on
a fresh tracker. -/
theorem C7_witness :
    (str "Wyoming") ∈ states_list ∧
    (∃ p s2 e2 places,
      generate_unique_address (str "Wyoming") freshState ⟨[3], []⟩ = (.ok p, s2, e2) ∧
      List.lookup (str "Wyoming") public_places = some places ∧ p ∈ places ∧
      s2.tracker.full_names = freshState.tracker.full_names ∧
      s2.tracker.emails = freshState.tracker.emails ∧
      s2.tracker.phones = freshState.tracker.phones ∧
      s2.tracker.name_hashes = freshState.tracker.name_hashes ∧
      s2.tracker.person_hashes = freshState.tracker.person_hashes ∧
      s2.stats.total_generated = freshState.stats.total_generated ∧
      s2.stats.unique_regenerations = freshState.stats.unique_regenerations) := by
  exact ⟨by decide, C7_address_selector_total (str "Wyoming") (by decide) freshState ⟨[3], []⟩⟩

theorem emailNum_eq_amended (attempt : Nat) (e : Env) :
    emailNum attempt e = emailNumAmended attempt e := by
  simp only [emailNum, emailNumAmended]
  by_cases h : attempt ≤ 10
  · rw [if_neg (by omega), if_pos h]
  · rw [if_pos (by omega), if_neg h]

theorem emailGo_eq_amended (first last : Str) :
    ∀ (fuel attempt : Nat) (s : GenState) (e : Env),
      emailGo first last attempt fuel s e = emailGoAmended first last attempt fuel s e := by
  intro fuel
  induction fuel with
  | zero => intro attempt s e; rfl
  | succ fuel ih =>
    intro attempt s e
    simp only [emailGo, emailGoAmended, emailNum_eq_amended]
    split
    · exact ih (attempt + 1) (addCollision s) _
    · rfl

/-- C8 counterexample: on a tracker that already issued
`james.smith1@email.com`, a stream that collides on the first ten attempts
and then draws 99 makes the source generator and the claim's generator
return different emails: the 11th attempt (0-based index 10) still draws its
suffix from 1-99 in the source (`attempt > 10` is false), not from 1-9999 as
the claim says. -/
theorem C8_counterexample :
    (generate_unique_email (str "James") (str "Smith") emailState0 envC8).1 =
      str "james.smith2@email.com" ∧
    (generate_unique_email_claim (str "James") (str "Smith") emailState0 envC8).1 =
      str "james.smith100@email.com" ∧
    (generate_unique_email (str "James") (str "Smith") emailState0 envC8).1 ≠
      (generate_unique_email_claim (str "James") (str "Smith") emailState0 envC8).1 := by
  refine ⟨by rfl, by rfl, by decide⟩

/-- C8 amended: in every call to the email generator, each of the first
ELEVEN attempts (0-based indices 0-10) appends a numeric suffix drawn from
1-99 and every later attempt one drawn from 1-9999; the pattern is one of
`first.last`, `f`+`last`, `first`+`l`, `first_last` in lowercase with a
domain from the fixed list of eight. -/
theorem C8_amended_suffix_schedule (first last : Str) (s : GenState) (e : Env) :
    generate_unique_email first last s e = generate_unique_email_amended first last s e :=
  emailGo_eq_amended first last 50 0 s e

set_option maxRecDepth 40000 in
/-- C4: the middle-initial fallback key is `len(full_names) % 26` alone, not
combined with the running unique-name count, so two exhausted calls whose
tracked-name counts are 26 apart and whose final attempted pair coincides
issue the SAME name twice: in this 28-call run, calls 2 and 28 both exhaust
the 200-attempt budget (the regeneration counter ends at 2) and both return
"James B Smith", and the 28th call adds nothing to the tracker (27 names for
28 calls). -/
theorem C4_fallback_name_reissued :
    (nameCalls id envsC4 freshState).1.getD 1 ([], []) = (str "James B", str "Smith") ∧
    (nameCalls id envsC4 freshState).1.getD 27 ([], []) = (str "James B", str "Smith") ∧
    (nameCalls id envsC4 freshState).2.stats.unique_regenerations = 2 ∧
    (nameCalls id envsC4 freshState).1.length = 28 ∧
    (nameCalls id envsC4 freshState).2.tracker.full_names.length = 27 := by
  refine ⟨by rfl, by rfl, by rfl, by rfl, by rfl⟩


theorem wyPhone_inj {m n : Nat} (h : wyPhone m = wyPhone n) : m = n := by
  have := List.append_cancel_left h
  exact decRepr_injective this

theorem mem_wyPhones (base : Nat) :
    ∀ (k : Nat) (p : Str), p ∈ wyPhones base k ↔ ∃ i, i < k ∧ p = wyPhone (base + i) := by
  intro k
  induction k with
  | zero => intro p; simp [wyPhones]
  | succ k ih =>
    intro p
    simp only [wyPhones, List.mem_cons, ih]
    constructor
    · rintro (h | ⟨i, hi, hp⟩)
      · exact ⟨k, by omega, h⟩
      · exact ⟨i, by omega, hp⟩
    · rintro ⟨i, hi, hp⟩
      by_cases hik : i = k
      · subst hik; exact Or.inl hp
      · exact Or.inr ⟨i, by omega, hp⟩

theorem length_wyPhones (base : Nat) : ∀ k, (wyPhones base k).length = k := by
  intro k
  induction k with
  | zero => rfl
  | succ k ih => simp [wyPhones, ih]

theorem insertSet_of_not_mem {x : Str} {l : List Str} (h : x ∉ l) : insertSet x l = x :: l := by
  simp [insertSet, h]

theorem phoneGo_succ (codes : List Str) (fuel : Nat) (area : Str) (s : GenState) (e : Env) :
    phoneGo codes (fuel + 1) area s e =
      (let ac := choice codes (str "555") e
       let exch := randint 200 999 ac.2
       let subscriber := randint 1000 9999 exch.2
       let phone :=
         str "(" ++ ac.1 ++ str ") " ++ decRepr exch.1 ++ str "-" ++ decRepr subscriber.1
       if phone ∈ s.tracker.phones then phoneGo codes fuel ac.1 (addCollision s) subscriber.2
       else (phone, addPhone phone s, subscriber.2)) := rfl

theorem phoneGo_zero (codes : List Str) (area : Str) (s : GenState) (e : Env) :
    phoneGo codes 0 area s e =
      (let phone := str "(" ++ area ++ str ") 999-" ++ fmt0 4 s.tracker.phones.length
       (phone, addPhone phone s, e)) := rfl

theorem wy_step (base k : Nat) (hb : 1000 ≤ base) (hk : base + k ≤ 9999) :
    generate_phone_number (str "Wyoming") (wyState base k) ⟨[0, 799, base + k - 1000], []⟩ =
      (wyPhone (base + k), wyState base (k + 1), ⟨[], []⟩) := by
  have hlook : (List.lookup (str "Wyoming") area_codes).getD [str "555"] = [str "307"] := by
    decide
  have hfresh : wyPhone (base + k) ∉ wyPhones base k := by
    intro hmem
    obtain ⟨i, hi, hp⟩ := (mem_wyPhones base k _).mp hmem
    have := wyPhone_inj hp
    omega
  simp only [generate_phone_number, hlook]
  rw [show (100 : Nat) = 99 + 1 from rfl, phoneGo_succ]
  simp only [choice, randint, Env.nextRand]
  norm_num
  have hsub : 1000 + (base + k - 1000) % 9000 = base + k := by omega
  rw [hsub]
  have hcand :
      str "(" ++ (str "307" ++ (str ") " ++ (decRepr 999 ++ (str "-" ++ decRepr (base + k))))) =
        wyPhone (base + k) := rfl
  rw [hcand]
  rw [if_neg (by simpa [wyState] using hfresh)]
  simp only [addPhone, wyState, insertSet_of_not_mem hfresh]
  rfl

theorem wy_reach (md5 : Str → Str) (strf : Nat → Str) (base : Nat) (hb : 1000 ≤ base) :
    ∀ k, base + k ≤ 10000 → Reachable md5 strf (wyState base k) := by
  intro k
  induction k with
  | zero => intro _; exact Reachable.fresh
  | succ k ih =>
    intro h
    have h2 := wy_step base k hb (by omega)
    have hr := Reachable.phoneStep (str "Wyoming") (wyState base k)
      ⟨[0, 799, base + k - 1000], []⟩ (ih (by omega))
    rw [h2] at hr
    exact hr

set_option maxRecDepth 100000 in
/-- C6 counterexample: on a reachable tracker holding the 1234 phone numbers
`(307) 999-1000` through `(307) 999-2233` — a count well below the claim's
9999 bound — a stream that draws exchange 999 and subscriber 2233 exhausts
all 100 attempts (the collision counter shows 100) and the fallback
`(307) 999-1234` then DUPLICATES the previously issued number with
subscriber block 1234, refuting the claimed uniqueness of the fallback. -/
theorem C6_counterexample :
    Reachable id decRepr (wyState 1000 1234) ∧
    (wyState 1000 1234).tracker.phones.length ≤ 9999 ∧
    (generate_phone_number (str "Wyoming") (wyState 1000 1234) envC6).2.1.stats.collision_attempts =
      100 ∧
    (generate_phone_number (str "Wyoming") (wyState 1000 1234) envC6).1 ∈
      (wyState 1000 1234).tracker.phones ∧
    (generate_phone_number (str "Wyoming") (wyState 1000 1234) envC6).2.1.stats.unique_regenerations =
      0 := by
  refine ⟨wy_reach id decRepr 1000 (by omega) 1234 (by omega), ?_, ?_, ?_, ?_⟩
  · have := length_wyPhones 1000 1234
    simp only [wyState]
    omega
  · rfl
  · have hres : (generate_phone_number (str "Wyoming") (wyState 1000 1234) envC6).1 =
        str "(307) 999-1234" := rfl
    rw [hres]
    exact (mem_wyPhones 1000 1234 _).mpr ⟨234, by omega, rfl⟩
  · rfl

set_option maxRecDepth 400000 in
/-- C2: a batch of 2 personas generated on a single reachable tracker
instance (1234 prior phone numbers `(307) 999-2000` ... `(307) 999-3233`)
returns two personas with the SAME phone string `(307) 999-1235` — the first
drawn randomly, the second produced by the phone fallback at count 1235 —
while the fallback-regeneration counter is still zero at the end of the
batch, contradicting the claimed N-distinct-phones property.  The phone
fallback violates the code's own "guaranteed uniqueness" comment without
touching `unique_regenerations`. -/
theorem C2_duplicate_phones_regen_zero :
    Reachable id decRepr (wyState 2000 1234) ∧
    (wyState 2000 1234).stats.unique_regenerations = 0 ∧
    ((generate_multiple_personas id decRepr 2 (some (str "Wyoming")) (wyState 2000 1234)
        envC2).1.toOption.getD []).length = 2 ∧
    ((((generate_multiple_personas id decRepr 2 (some (str "Wyoming")) (wyState 2000 1234)
        envC2).1.toOption.getD []).getD 0 dummyPersona)).phone = str "(307) 999-1235" ∧
    ((((generate_multiple_personas id decRepr 2 (some (str "Wyoming")) (wyState 2000 1234)
        envC2).1.toOption.getD []).getD 1 dummyPersona)).phone = str "(307) 999-1235" ∧
    (generate_multiple_personas id decRepr 2 (some (str "Wyoming")) (wyState 2000 1234)
        envC2).2.1.stats.unique_regenerations = 0 := by
  refine ⟨wy_reach id decRepr 2000 (by omega) 1234 (by omega), rfl, ?_, ?_, ?_, ?_⟩
  · rfl
  · rfl
  · rfl
  · rfl

set_option maxRecDepth 20000 in
theorem allCodes_len : ∀ c ∈ allCodes, c.length = 3 := by decide

set_option maxRecDepth 20000 in
theorem placeholder_mem_allCodes : str "555" ∈ allCodes := by decide

theorem codes_sub_allCodes (st : Str) :
    ∀ c ∈ (List.lookup st area_codes).getD [str "555"], c ∈ allCodes := by
  intro c hc
  cases hlook : List.lookup st area_codes with
  | none =>
    rw [hlook] at hc
    simp only [Option.getD] at hc
    simp only [List.mem_singleton] at hc
    rw [hc]
    exact placeholder_mem_allCodes
  | some cs =>
    rw [hlook] at hc
    simp only [Option.getD] at hc
    have hpair := lookup_some_mem area_codes st cs hlook
    apply List.mem_append_left
    exact List.mem_flatten.mpr ⟨cs, List.mem_map.mpr ⟨(st, cs), hpair, rfl⟩, hc⟩

theorem choice_mem_or_default {α : Type} (l : List α) (d : α) (e : Env) :
    (choice l d e).1 ∈ l ∨ (choice l d e).1 = d := by
  by_cases h : l = []
  · subst h
    right
    simp [choice, List.getD]
  · exact Or.inl (choice_mem l d e h)

theorem phone_parts_inj {a b x u y v : Str} (ha : a.length = 3) (hb : b.length = 3)
    (hx : x.length = 3) (hu : u.length = 3)
    (h : str "(" ++ (a ++ (str ") " ++ (x ++ (str "-" ++ y)))) =
         str "(" ++ (b ++ (str ") " ++ (u ++ (str "-" ++ v))))) :
    a = b ∧ x = u ∧ y = v := by
  have h1 := List.append_cancel_left h
  obtain ⟨hab, h2⟩ := List.append_inj h1 (by rw [ha, hb])
  have h3 := List.append_cancel_left h2
  obtain ⟨hxu, h4⟩ := List.append_inj h3 (by rw [hx, hu])
  have h5 := List.append_cancel_left h4
  exact ⟨hab, hxu, h5⟩

theorem decRepr_len3 {n : Nat} (h1 : 100 ≤ n) (h2 : n ≤ 999) : (decRepr n).length = 3 := by
  have hle := decRepr_length_le 3 n (by omega) (by omega)
  have hge := decRepr_length_ge 2 n (by omega)
  omega

theorem fmt0_4_head_zero {m : Nat} (h : m < 1000) : ∃ t, fmt0 4 m = '0' :: t := by
  apply fmt0_head_zero
  have := decRepr_length_le 3 m (by omega) (by omega)
  omega

theorem fallback_fresh {s : GenState} (hinv : PhoneInv s) (hlen : s.tracker.phones.length < 1000)
    (area : Str) (ha : area ∈ allCodes) :
    str "(" ++ area ++ str ") 999-" ++ fmt0 4 s.tracker.phones.length ∉ s.tracker.phones := by
  intro hmem
  rcases hinv _ hmem with ⟨b, ex, sub, hb, hex1, hex2, hsub1, hsub2, heq⟩ | ⟨b, m, hb, hm, heq⟩
  · simp only [List.append_assoc] at heq
    have hsh : str "(" ++ (area ++ (str ") 999-" ++ fmt0 4 s.tracker.phones.length)) =
        str "(" ++ (area ++ (str ") " ++ (str "999" ++
          (str "-" ++ fmt0 4 s.tracker.phones.length)))) := rfl
    obtain ⟨hab, h999, hpad⟩ :=
      phone_parts_inj (allCodes_len area ha) (allCodes_len b hb) (by decide)
        (decRepr_len3 (by omega) hex2) (hsh.symm.trans heq)
    obtain ⟨t, ht⟩ := fmt0_4_head_zero hlen
    obtain ⟨c, t2, hct, hc0⟩ := decRepr_head_ne_zero sub (by omega)
    rw [ht, hct] at hpad
    exact hc0 (List.head_eq_of_cons_eq hpad.symm)
  · simp only [List.append_assoc] at heq
    have hsh1 : str "(" ++ (area ++ (str ") 999-" ++ fmt0 4 s.tracker.phones.length)) =
        str "(" ++ (area ++ (str ") " ++ (str "999" ++
          (str "-" ++ fmt0 4 s.tracker.phones.length)))) := rfl
    have hsh2 : str "(" ++ (b ++ (str ") 999-" ++ fmt0 4 m)) =
        str "(" ++ (b ++ (str ") " ++ (str "999" ++ (str "-" ++ fmt0 4 m)))) := rfl
    obtain ⟨hab, h999, hpad⟩ :=
      phone_parts_inj (allCodes_len area ha) (allCodes_len b hb) (by decide) (by decide)
        (hsh1.symm.trans (heq.trans hsh2))
    have := fmt0_injective hpad
    omega

theorem PhoneInv_of_eq {s s2 : GenState} (h : s2.tracker.phones = s.tracker.phones)
    (hi : PhoneInv s) : PhoneInv s2 := by
  intro p hp
  rw [h] at hp
  have := hi p hp
  rwa [h]

theorem phoneGo_fresh (codes : List Str) (hc : ∀ c ∈ codes, c ∈ allCodes) :
    ∀ (fuel : Nat) (area : Str) (s : GenState) (e : Env), area ∈ allCodes → PhoneInv s →
      s.tracker.phones.length < 1000 → (phoneGo codes fuel area s e).1 ∉ s.tracker.phones := by
  intro fuel
  induction fuel with
  | zero =>
    intro area s e ha hinv hlen
    exact fallback_fresh hinv hlen area ha
  | succ fuel ih =>
    intro area s e ha hinv hlen
    rw [phoneGo_succ]
    simp only []
    split
    · rename_i hmem
      have hac : (choice codes (str "555") e).1 ∈ allCodes := by
        rcases choice_mem_or_default codes (str "555") e with h | h
        · exact hc _ h
        · rw [h]; exact placeholder_mem_allCodes
      exact ih _ (addCollision s) _ hac (PhoneInv_of_eq rfl hinv) hlen
    · rename_i hnmem
      exact hnmem

theorem phoneGo_inv (codes : List Str) (hc : ∀ c ∈ codes, c ∈ allCodes) :
    ∀ (fuel : Nat) (area : Str) (s : GenState) (e : Env), area ∈ allCodes → PhoneInv s →
      PhoneInv (phoneGo codes fuel area s e).2.1 := by
  intro fuel
  induction fuel with
  | zero =>
    intro area s e ha hinv
    simp only [phoneGo_zero, addPhone, insertSet]
    split
    · exact PhoneInv_of_eq rfl hinv
    · rename_i hnmem
      intro p hp
      simp only [List.mem_cons] at hp
      simp only [List.length_cons]
      rcases hp with hp | hp
      · right
        exact ⟨area, s.tracker.phones.length, ha, by omega, hp⟩
      · rcases hinv p hp with h | ⟨b, m, hb, hm, heq⟩
        · exact Or.inl h
        · exact Or.inr ⟨b, m, hb, by omega, heq⟩
  | succ fuel ih =>
    intro area s e ha hinv
    rw [phoneGo_succ]
    simp only []
    split
    · rename_i hmem
      have hac : (choice codes (str "555") e).1 ∈ allCodes := by
        rcases choice_mem_or_default codes (str "555") e with h | h
        · exact hc _ h
        · rw [h]; exact placeholder_mem_allCodes
      exact ih _ (addCollision s) _ hac (PhoneInv_of_eq rfl hinv)
    · rename_i hnmem
      have hac : (choice codes (str "555") e).1 ∈ allCodes := by
        rcases choice_mem_or_default codes (str "555") e with h | h
        · exact hc _ h
        · rw [h]; exact placeholder_mem_allCodes
      simp only [addPhone, insertSet, if_neg hnmem]
      intro p hp
      simp only [List.mem_cons] at hp
      simp only [List.length_cons]
      rcases hp with hp | hp
      · left
        refine ⟨(choice codes (str "555") e).1,
          (randint 200 999 (choice codes (str "555") e).2).1,
          (randint 1000 9999 (randint 200 999 (choice codes (str "555") e).2).2).1,
          hac, ?_, ?_, ?_, ?_, hp⟩
        all_goals simp only [randint]
        all_goals omega
      · rcases hinv p hp with h | ⟨b, m, hb, hm, heq⟩
        · exact Or.inl h
        · exact Or.inr ⟨b, m, hb, by omega, heq⟩

theorem addressGo_phones (state : Str) (places : List Place) :
    ∀ (fuel attempt : Nat) (s : GenState) (e : Env),
      (addressGo state places attempt fuel s e).2.1.tracker.phones = s.tracker.phones := by
  intro fuel
  induction fuel with
  | zero => intro attempt s e; rfl
  | succ fuel ih =>
    intro attempt s e
    simp only [addressGo]
    split
    · rfl
    · split
      · split <;> simp [addAddress]
      · exact ih (attempt + 1) (addCollision s) _

theorem generate_unique_address_phones (st : Str) (s : GenState) (e : Env) :
    (generate_unique_address st s e).2.1.tracker.phones = s.tracker.phones := by
  simp only [generate_unique_address]
  split
  · rfl
  · exact addressGo_phones st _ _ 0 s _

theorem generate_phone_number_inv (st : Str) (s : GenState) (e : Env) (hi : PhoneInv s) :
    PhoneInv (generate_phone_number st s e).2.1 := by
  simp only [generate_phone_number]
  exact phoneGo_inv _ (codes_sub_allCodes st) 100 (str "555") s e placeholder_mem_allCodes hi

theorem generate_unique_name_phones (md5 : Str → Str) (s : GenState) (e : Env) :
    (generate_unique_name md5 s e).2.1.tracker.phones = s.tracker.phones :=
  (nameGo_fields md5 200 [] [] s e).2.1

theorem generate_unique_email_phones (f l : Str) (s : GenState) (e : Env) :
    (generate_unique_email f l s e).2.1.tracker.phones = s.tracker.phones :=
  (emailGo_fields f l 50 0 s e).2.1

theorem generate_persona_inv (md5 : Str → Str) (strf : Nat → Str) (req : Option Str)
    (s : GenState) (e : Env) (hi : PhoneInv s) :
    PhoneInv (generate_persona md5 strf req s e).2.1 := by
  simp only [generate_persona]
  have h1 : PhoneInv (generate_unique_name md5 s (resolveState req e).2).2.1 :=
    PhoneInv_of_eq (generate_unique_name_phones md5 s _) hi
  have h2 : PhoneInv (generate_unique_email
      (firstToken (generate_unique_name md5 s (resolveState req e).2).1.1)
      (generate_unique_name md5 s (resolveState req e).2).1.2
      (generate_unique_name md5 s (resolveState req e).2).2.1
      (generate_unique_name md5 s (resolveState req e).2).2.2).2.1 :=
    PhoneInv_of_eq (generate_unique_email_phones _ _ _ _) h1
  have h3 : PhoneInv (generate_phone_number (resolveState req e).1
      (generate_unique_email
        (firstToken (generate_unique_name md5 s (resolveState req e).2).1.1)
        (generate_unique_name md5 s (resolveState req e).2).1.2
        (generate_unique_name md5 s (resolveState req e).2).2.1
        (generate_unique_name md5 s (resolveState req e).2).2.2).2.1
      (generate_unique_email
        (firstToken (generate_unique_name md5 s (resolveState req e).2).1.1)
        (generate_unique_name md5 s (resolveState req e).2).1.2
        (generate_unique_name md5 s (resolveState req e).2).2.1
        (generate_unique_name md5 s (resolveState req e).2).2.2).2.2).2.1 :=
    generate_phone_number_inv _ _ _ h2
  split
  · rename_i er2 s5 e5 heq
    have hs5 : s5.tracker.phones =
        (generate_phone_number (resolveState req e).1
          (generate_unique_email
            (firstToken (generate_unique_name md5 s (resolveState req e).2).1.1)
            (generate_unique_name md5 s (resolveState req e).2).1.2
            (generate_unique_name md5 s (resolveState req e).2).2.1
            (generate_unique_name md5 s (resolveState req e).2).2.2).2.1
          (generate_unique_email
            (firstToken (generate_unique_name md5 s (resolveState req e).2).1.1)
            (generate_unique_name md5 s (resolveState req e).2).1.2
            (generate_unique_name md5 s (resolveState req e).2).2.1
            (generate_unique_name md5 s (resolveState req e).2).2.2).2.2).2.1.tracker.phones := by
      have := congrArg (fun t => t.2.1.tracker.phones) heq
      simp only at this
      rw [generate_unique_address_phones] at this
      exact this.symm
    exact PhoneInv_of_eq hs5 h3
  · rename_i place s5 e5 heq
    have hs5 : s5.tracker.phones =
        (generate_phone_number (resolveState req e).1
          (generate_unique_email
            (firstToken (generate_unique_name md5 s (resolveState req e).2).1.1)
            (generate_unique_name md5 s (resolveState req e).2).1.2
            (generate_unique_name md5 s (resolveState req e).2).2.1
            (generate_unique_name md5 s (resolveState req e).2).2.2).2.1
          (generate_unique_email
            (firstToken (generate_unique_name md5 s (resolveState req e).2).1.1)
            (generate_unique_name md5 s (resolveState req e).2).1.2
            (generate_unique_name md5 s (resolveState req e).2).2.1
            (generate_unique_name md5 s (resolveState req e).2).2.2).2.2).2.1.tracker.phones := by
      have := congrArg (fun t => t.2.1.tracker.phones) heq
      simp only at this
      rw [generate_unique_address_phones] at this
      exact this.symm
    have hs5inv : PhoneInv s5 := PhoneInv_of_eq hs5 h3
    split
    · exact PhoneInv_of_eq rfl hs5inv
    · split
      · apply PhoneInv_of_eq _ hs5inv
        simp only [addTotal, addPersonHash]
        rw [generate_unique_email_phones]
        rfl
      · exact PhoneInv_of_eq rfl hs5inv

theorem reachable_phoneInv (md5 : Str → Str) (strf : Nat → Str) (s : GenState)
    (h : Reachable md5 strf s) : PhoneInv s := by
  induction h with
  | fresh => intro p hp; simp [freshState] at hp
  | nameStep s e _ ih => exact PhoneInv_of_eq (generate_unique_name_phones md5 s e) ih
  | emailStep first last s e _ ih =>
    exact PhoneInv_of_eq (generate_unique_email_phones first last s e) ih
  | phoneStep st s e _ ih => exact generate_phone_number_inv st s e ih
  | addressStep st s e _ ih => exact PhoneInv_of_eq (generate_unique_address_phones st s e) ih
  | personaStep st s e _ ih => exact generate_persona_inv md5 strf st s e ih

/-- C6 amended: on every reachable tracker holding fewer than 1000 phone
numbers, the phone generator's result — the fallback string
`(AAA) 999-NNNN` included — is distinct from every previously issued phone
number.  (The claim's bound of 9999 is refuted by the counterexample: from
1000 tracked phones on, the zero-padded count can coincide with the
subscriber block of a randomly built number.) -/
theorem C6_amended_fallback_unique (md5 : Str → Str) (strf : Nat → Str) (st : Str)
    (s : GenState) (e : Env) (h : Reachable md5 strf s)
    (hlen : s.tracker.phones.length < 1000) :
    (generate_phone_number st s e).1 ∉ s.tracker.phones := by
  have hinv := reachable_phoneInv md5 strf s h
  simp only [generate_phone_number]
  exact phoneGo_fresh _ (codes_sub_allCodes st) 100 (str "555") s e
    placeholder_mem_allCodes hinv hlen

/-- C6 witness: the amended fallback-uniqueness theorem applied to a fresh
tracker. -/
theorem C6_amended_witness :
    Reachable id decRepr freshState ∧ freshState.tracker.phones.length < 1000 ∧
    (generate_phone_number (str "Wyoming") freshState ⟨[0, 0, 0], []⟩).1 ∉
      freshState.tracker.phones :=
  ⟨Reachable.fresh, by decide,
    C6_amended_fallback_unique id decRepr (str "Wyoming") freshState ⟨[0, 0, 0], []⟩
      Reachable.fresh (by decide)⟩


theorem generate_unique_email_regen (f l : Str) (s : GenState) (e : Env) :
    (generate_unique_email f l s e).2.1.stats.unique_regenerations =
      s.stats.unique_regenerations :=
  (emailGo_fields f l 50 0 s e).2.2.2.2.2.2.1

/-- C9: whenever the composite fingerprint of the assembled persona already
exists in the tracker, exactly one corrective pass runs: only the email is
regenerated (seeded by the base first name with a random 1-99 token
appended), the fingerprint is recomputed once over the new email, the result
is recorded by a plain set-add — with no further retry even if the
recomputed fingerprint also collides — and the fallback-regeneration counter
is incremented by exactly that one pass. -/
theorem C9_single_corrective_pass (md5 : Str → Str) (strf : Nat → Str) (st : Str)
    (s : GenState) (e : Env) (hst : st ∈ states_list) :
    let nr := generate_unique_name md5 s e
    let er := generate_unique_email (firstToken nr.1.1) nr.1.2 nr.2.1 nr.2.2
    let pr := generate_phone_number st er.2.1 er.2.2
    let ar := generate_unique_address st pr.2.1 pr.2.2
    ∀ (place : Place), ar.1 = .ok place →
    ∀ (code : Str), List.lookup st state_codes = some code →
    generate_unique_hash md5 [nr.1.1, nr.1.2, er.1, pr.1, fullAddressOf code place] ∈
      ar.2.1.tracker.person_hashes →
    let te := ar.2.2.nextTime
    let xr := randint 1 99 te.2
    let er2 := generate_unique_email (firstToken nr.1.1 ++ decRepr xr.1) nr.1.2
      (addRegen ar.2.1) xr.2
    let h2 := generate_unique_hash md5 [nr.1.1, nr.1.2, er2.1, pr.1, fullAddressOf code place]
    ∃ p, generate_persona md5 strf (some st) s e =
        (.ok p, addTotal (addPersonHash h2 er2.2.1), er2.2.2) ∧
      p.email = er2.1 ∧
      p.firstName = nr.1.1 ∧ p.lastName = nr.1.2 ∧ p.phone = pr.1 ∧
      p.fullAddress = fullAddressOf code place ∧
      p.pid = str "P" ++ fmt0 6 (ar.2.1.stats.total_generated + 1) ∧
      (addTotal (addPersonHash h2 er2.2.1)).stats.unique_regenerations =
        ar.2.1.stats.unique_regenerations + 1 := by
  intro nr er pr ar place har code hcode hcol te xr er2 h2
  have hne : st ≠ [] ∧ st ≠ str "Mixed" := by
    constructor
    · intro hh; rw [hh] at hst; exact nil_not_state hst
    · intro hh; rw [hh] at hst; exact mixed_not_state hst
  have hres : resolveState (some st) e = (st, e) := by
    simp only [resolveState, if_pos hne]
  have hartup : generate_unique_address st pr.2.1 pr.2.2 = (.ok place, ar.2.1, ar.2.2) := by
    rw [← har]
  simp only [generate_persona, hres]
  rw [hartup]
  simp only [hcode]
  rw [if_pos hcol]
  refine ⟨_, rfl, rfl, rfl, rfl, rfl, rfl, rfl, ?_⟩
  simp only [addTotal, addPersonHash]
  rw [generate_unique_email_regen]
  simp [addRegen]

/-- C9 witness: the corrective-pass theorem applied to a concrete collision:
a tracker pre-seeded with exactly the fingerprint the pipeline is about to
compute. -/
theorem C9_witness :
    (str "Wyoming") ∈ states_list ∧
    ∃ p, (generate_persona id decRepr (some (str "Wyoming")) c9State c9Env).1 = .ok p ∧
      p.email = str "james6.smith1@email.com" ∧
      (generate_persona id decRepr (some (str "Wyoming")) c9State c9Env).2.1.stats.unique_regenerations = 1 := by
  refine ⟨by decide, ?_⟩
  obtain ⟨p, hp, hemail, -, -, -, -, -, hregen⟩ :=
    C9_single_corrective_pass id decRepr (str "Wyoming") c9State c9Env (by decide)
      placeWy0 (by rfl) (str "WY") (by decide) (by decide)
  refine ⟨p, ?_, ?_, ?_⟩
  · rw [hp]
  · rw [hemail]
    rfl
  · rw [hp]
    exact hregen.trans (by rfl)

theorem sep_split {sep : Char} :
    ∀ (a c b d : Str), sep ∉ a → sep ∉ c → a ++ sep :: b = c ++ sep :: d → a = c ∧ b = d := by
  intro a
  induction a with
  | nil =>
    intro c b d _ hc h
    cases c with
    | nil => simpa using h
    | cons y ys =>
      exfalso
      simp only [List.nil_append, List.cons_append, List.cons.injEq] at h
      exact hc (h.1 ▸ List.mem_cons_self y ys)
  | cons x xs ih =>
    intro c b d ha hc h
    cases c with
    | nil =>
      exfalso
      simp only [List.cons_append, List.nil_append, List.cons.injEq] at h
      exact ha (h.1 ▸ List.mem_cons_self x xs)
    | cons y ys =>
      simp only [List.cons_append, List.cons.injEq] at h
      have hxs := ih ys b d (fun hm => ha (List.mem_cons_of_mem x hm))
        (fun hm => hc (List.mem_cons_of_mem y hm)) h.2
      exact ⟨by rw [h.1, hxs.1], hxs.2⟩

theorem joinPipe_pair (a b : Str) : joinPipe [a, b] = a ++ '|' :: b := rfl

theorem NamesInv_of_eq {md5 : Str → Str} {s s2 : GenState}
    (hf : s2.tracker.full_names = s.tracker.full_names)
    (hh : s2.tracker.name_hashes = s.tracker.name_hashes)
    (hi : NamesInv md5 s) : NamesInv md5 s2 := by
  obtain ⟨ps, hpf, h1, h2⟩ := hi
  exact ⟨ps, hpf, by rw [hf]; exact h1, by rw [hh]; exact h2⟩

theorem insertSet_setEq {x : Str} {l1 l2 : List Str} (h : SetEq l1 l2) :
    SetEq (insertSet x l1) (x :: l2) := by
  intro y
  simp only [insertSet]
  split
  · rename_i hx
    constructor
    · intro hy
      exact List.mem_cons_of_mem x ((h y).mp hy)
    · intro hy
      rcases List.mem_cons.mp hy with hy | hy
      · rw [hy]; exact hx
      · exact (h y).mpr hy
  · constructor
    · intro hy
      rcases List.mem_cons.mp hy with hy | hy
      · rw [hy]; exact List.mem_cons_self x l2
      · exact List.mem_cons_of_mem x ((h y).mp hy)
    · intro hy
      rcases List.mem_cons.mp hy with hy | hy
      · rw [hy]; exact List.mem_cons_self x l1
      · exact List.mem_cons_of_mem x ((h y).mpr hy)

theorem first_names_male_pipe_free : ∀ n ∈ first_names_male, PipeFree n := by decide

theorem first_names_female_pipe_free : ∀ n ∈ first_names_female, PipeFree n := by decide

theorem last_names_pipe_free : ∀ n ∈ last_names, PipeFree n := by decide

theorem first_names_male_ne_nil : first_names_male ≠ [] := by decide

theorem first_names_female_ne_nil : first_names_female ≠ [] := by decide

theorem last_names_ne_nil : last_names ≠ [] := by decide

theorem middle_initial_ne_pipe : ∀ u : Nat, Char.ofNat (65 + u % 26) ≠ '|' := by
  intro u
  have h : u % 26 < 26 := Nat.mod_lt _ (by omega)
  have hd : ∀ v : Nat, v < 26 → Char.ofNat (65 + v) ≠ '|' := by decide
  exact hd _ h

theorem pickFirst_pipe_free (g : Str) (e : Env) : PipeFree (pickFirst g e).1 := by
  simp only [pickFirst]
  split
  · exact first_names_male_pipe_free _ (choice_mem _ _ _ first_names_male_ne_nil)
  · exact first_names_female_pipe_free _ (choice_mem _ _ _ first_names_female_ne_nil)

theorem nameGo_namesInv (md5 : Str → Str) :
    ∀ (fuel : Nat) (f l : Str) (s : GenState) (e : Env), PipeFree f → PipeFree l →
      NamesInv md5 s → NamesInv md5 (nameGo md5 fuel f l s e).2.1 := by
  intro fuel
  induction fuel with
  | zero =>
    intro f l s e hf hl hi
    obtain ⟨ps, hpf, h1, h2⟩ := hi
    simp only [nameGo, addNameHash, addFullName, addRegen]
    refine ⟨(f ++ str " " ++ [Char.ofNat (65 + s.tracker.full_names.length % 26)], l) :: ps,
      ?_, ?_, ?_⟩
    · intro p hp
      rcases List.mem_cons.mp hp with hp | hp
      · rw [hp]
        refine ⟨?_, hl⟩
        intro hmem
        rcases List.mem_append.mp hmem with hm | hm
        · rcases List.mem_append.mp hm with hm | hm
          · exact hf hm
          · simp [str] at hm
        · simp only [List.mem_singleton] at hm
          exact middle_initial_ne_pipe s.tracker.full_names.length hm.symm
      · exact hpf p hp
    · exact insertSet_setEq h1
    · exact insertSet_setEq h2
  | succ fuel ih =>
    intro f l s e hf hl hi
    simp only [nameGo]
    split
    · obtain ⟨ps, hpf, h1, h2⟩ := hi
      refine ⟨((pickFirst (choice [str "male", str "female"] [] e).1 (choice [str "male", str "female"] [] e).2).1,
        (choice last_names [] (pickFirst (choice [str "male", str "female"] [] e).1 (choice [str "male", str "female"] [] e).2).2).1) :: ps, ?_, ?_, ?_⟩
      · intro p hp
        rcases List.mem_cons.mp hp with hp | hp
        · rw [hp]
          exact ⟨pickFirst_pipe_free _ _,
            last_names_pipe_free _ (choice_mem _ _ _ last_names_ne_nil)⟩
        · exact hpf p hp
      · simp only [addNameHash, addFullName]
        exact insertSet_setEq h1
      · simp only [addNameHash, addFullName]
        exact insertSet_setEq h2
    · exact ih _ _ (addCollision s) _ (pickFirst_pipe_free _ _)
        (last_names_pipe_free _ (choice_mem _ _ _ last_names_ne_nil))
        (NamesInv_of_eq rfl rfl hi)

theorem generate_unique_email_names (f l : Str) (s : GenState) (e : Env) :
    (generate_unique_email f l s e).2.1.tracker.full_names = s.tracker.full_names ∧
    (generate_unique_email f l s e).2.1.tracker.name_hashes = s.tracker.name_hashes :=
  ⟨(emailGo_fields f l 50 0 s e).1, (emailGo_fields f l 50 0 s e).2.2.2.1⟩

theorem generate_phone_number_names (st : Str) (s : GenState) (e : Env) :
    (generate_phone_number st s e).2.1.tracker.full_names = s.tracker.full_names ∧
    (generate_phone_number st s e).2.1.tracker.name_hashes = s.tracker.name_hashes :=
  ⟨(phoneGo_fields _ 100 (str "555") s e).1, (phoneGo_fields _ 100 (str "555") s e).2.2.2.1⟩

theorem addressGo_names (state : Str) (places : List Place) :
    ∀ (fuel attempt : Nat) (s : GenState) (e : Env),
      (addressGo state places attempt fuel s e).2.1.tracker.full_names = s.tracker.full_names ∧
      (addressGo state places attempt fuel s e).2.1.tracker.name_hashes =
        s.tracker.name_hashes := by
  intro fuel
  induction fuel with
  | zero => intro attempt s e; exact ⟨rfl, rfl⟩
  | succ fuel ih =>
    intro attempt s e
    simp only [addressGo]
    split
    · exact ⟨rfl, rfl⟩
    · split
      · constructor <;> (split <;> simp [addAddress])
      · exact ih (attempt + 1) (addCollision s) _

theorem generate_unique_address_names (st : Str) (s : GenState) (e : Env) :
    (generate_unique_address st s e).2.1.tracker.full_names = s.tracker.full_names ∧
    (generate_unique_address st s e).2.1.tracker.name_hashes = s.tracker.name_hashes := by
  simp only [generate_unique_address]
  split
  · exact ⟨rfl, rfl⟩
  · exact addressGo_names st _ _ 0 s _

theorem generate_unique_name_namesInv (md5 : Str → Str) (s : GenState) (e : Env)
    (hi : NamesInv md5 s) : NamesInv md5 (generate_unique_name md5 s e).2.1 :=
  nameGo_namesInv md5 200 [] [] s e (by simp [PipeFree]) (by simp [PipeFree]) hi

theorem generate_persona_namesInv (md5 : Str → Str) (strf : Nat → Str) (req : Option Str)
    (s : GenState) (e : Env) (hi : NamesInv md5 s) :
    NamesInv md5 (generate_persona md5 strf req s e).2.1 := by
  simp only [generate_persona]
  have h1 : NamesInv md5 (generate_unique_name md5 s (resolveState req e).2).2.1 :=
    generate_unique_name_namesInv md5 s _ hi
  have h2 : NamesInv md5 (generate_unique_email
      (firstToken (generate_unique_name md5 s (resolveState req e).2).1.1)
      (generate_unique_name md5 s (resolveState req e).2).1.2
      (generate_unique_name md5 s (resolveState req e).2).2.1
      (generate_unique_name md5 s (resolveState req e).2).2.2).2.1 :=
    NamesInv_of_eq (generate_unique_email_names _ _ _ _).1
      (generate_unique_email_names _ _ _ _).2 h1
  have h3 : NamesInv md5 (generate_phone_number (resolveState req e).1
      (generate_unique_email
        (firstToken (generate_unique_name md5 s (resolveState req e).2).1.1)
        (generate_unique_name md5 s (resolveState req e).2).1.2
        (generate_unique_name md5 s (resolveState req e).2).2.1
        (generate_unique_name md5 s (resolveState req e).2).2.2).2.1
      (generate_unique_email
        (firstToken (generate_unique_name md5 s (resolveState req e).2).1.1)
        (generate_unique_name md5 s (resolveState req e).2).1.2
        (generate_unique_name md5 s (resolveState req e).2).2.1
        (generate_unique_name md5 s (resolveState req e).2).2.2).2.2).2.1 :=
    NamesInv_of_eq (generate_phone_number_names _ _ _).1
      (generate_phone_number_names _ _ _).2 h2
  split
  · rename_i er2 s5 e5 heq
    have hf := congrArg (fun t => t.2.1.tracker.full_names) heq
    have hh := congrArg (fun t => t.2.1.tracker.name_hashes) heq
    simp only at hf hh
    rw [(generate_unique_address_names _ _ _).1] at hf
    rw [(generate_unique_address_names _ _ _).2] at hh
    exact NamesInv_of_eq hf.symm hh.symm h3
  · rename_i place s5 e5 heq
    have hf := congrArg (fun t => t.2.1.tracker.full_names) heq
    have hh := congrArg (fun t => t.2.1.tracker.name_hashes) heq
    simp only at hf hh
    rw [(generate_unique_address_names _ _ _).1] at hf
    rw [(generate_unique_address_names _ _ _).2] at hh
    have hs5 : NamesInv md5 s5 := NamesInv_of_eq hf.symm hh.symm h3
    split
    · exact NamesInv_of_eq rfl rfl hs5
    · split
      · apply NamesInv_of_eq _ _ hs5
        · simp only [addTotal, addPersonHash]
          rw [(generate_unique_email_names _ _ _ _).1]
          rfl
        · simp only [addTotal, addPersonHash]
          rw [(generate_unique_email_names _ _ _ _).2]
          rfl
      · exact NamesInv_of_eq rfl rfl hs5

theorem reachable_namesInv (md5 : Str → Str) (strf : Nat → Str) (s : GenState)
    (h : Reachable md5 strf s) : NamesInv md5 s := by
  induction h with
  | fresh =>
    exact ⟨[], by simp, fun x => by simp [freshState], fun x => by simp [freshState]⟩
  | nameStep s e _ ih => exact generate_unique_name_namesInv md5 s e ih
  | emailStep first last s e _ ih =>
    exact NamesInv_of_eq (generate_unique_email_names _ _ _ _).1
      (generate_unique_email_names _ _ _ _).2 ih
  | phoneStep st s e _ ih =>
    exact NamesInv_of_eq (generate_phone_number_names _ _ _).1
      (generate_phone_number_names _ _ _).2 ih
  | addressStep st s e _ ih =>
    exact NamesInv_of_eq (generate_unique_address_names _ _ _).1
      (generate_unique_address_names _ _ _).2 ih
  | personaStep st s e _ ih => exact generate_persona_namesInv md5 strf st s e ih

/-- C10: in every reachable generator state the full-name set and the
name-hash set are images of one and the same list of issued (first, last)
pairs — the two sets are always updated together, on the retry path and on
the fallback path alike — and consequently (for a collision-free digest) the
secondary hash test can never reject a pipe-free candidate pair that the
full-name test accepts. -/
theorem C10_names_hashes_updated_together (md5 : Str → Str) (strf : Nat → Str) (s : GenState)
    (h : Reachable md5 strf s) :
    NamesInv md5 s ∧
    (Function.Injective md5 →
      ∀ f l : Str, PipeFree f → PipeFree l →
        fullNameOf (f, l) ∉ s.tracker.full_names →
        pairHash md5 (f, l) ∉ s.tracker.name_hashes) := by
  have hi := reachable_namesInv md5 strf s h
  refine ⟨hi, ?_⟩
  intro hinj f l hf hl hnot hmem
  obtain ⟨ps, hpf, h1, h2⟩ := hi
  have := (h2 _).mp hmem
  obtain ⟨p, hp, hph⟩ := List.mem_map.mp this
  have hjoin : joinPipe [p.1, p.2] = joinPipe [f, l] := hinj hph
  rw [joinPipe_pair, joinPipe_pair] at hjoin
  obtain ⟨hp1, hp2⟩ := sep_split p.1 f p.2 l (hpf p hp).1 hf hjoin
  apply hnot
  apply (h1 _).mpr
  apply List.mem_map.mpr
  refine ⟨p, hp, ?_⟩
  simp only [fullNameOf]
  rw [hp1, hp2]

/-- C10 witness: the invariant theorem applied to the fresh tracker with the
identity digest (which is injective). -/
theorem C10_witness :
    Reachable id decRepr freshState ∧
    (NamesInv id freshState ∧
      (Function.Injective (id : Str → Str) →
        ∀ f l : Str, PipeFree f → PipeFree l →
          fullNameOf (f, l) ∉ freshState.tracker.full_names →
          pairHash id (f, l) ∉ freshState.tracker.name_hashes)) :=
  ⟨Reachable.fresh, C10_names_hashes_updated_together id decRepr freshState Reachable.fresh⟩
